import Mathlib

/-!
Verification of the trackmate_frontend lap-timing web application.

This file shallowly embeds the core logic of the repository:
  * the lap-time codec `formatLapTime` / `parseLapTime` (src/unnamed/part_007),
  * the deep-link builder `buildTimingDeepLink` and `normalizeConditions`
    (src/unnamed/part_008),
  * the manual lap-entry validation (`handleAddLap`, `handleAddQsLap` in
    src/unnamed/part_007),
  * the personal-best aggregation of the driver profile page
    (src/app/driver/[id]/page.tsx) and track detail page (src/unnamed/part_002),
  * the phone-session ingest endpoint (`POST` in src/unnamed/part_000),
and proves the specification's claims about them.

JavaScript numbers are modelled as `Nat` / `Int` (all quantities involved in
the claims are integers well below 2^53, where IEEE doubles are exact), and
JavaScript strings as Lean `String` (sequences of Unicode scalar values; no
input relevant to a claim contains surrogate-sensitive characters).
-/

/-! ## Decimal digits and decimal rendering of naturals -/

/-- Test for an ASCII decimal digit, the character class `\d` of the
JavaScript regexes in the source (code points 48 to 57). -/
def isDigitChar (c : Char) : Bool := 48 ≤ c.toNat && c.toNat ≤ 57

/-- The digit character for a value below ten. -/
def digitChar (n : Nat) : Char := Char.ofNat (48 + n)

/-- Numeric value of one digit character. -/
def digitVal (c : Char) : Nat := c.toNat - 48

/-- Value of a big-endian string of decimal digits, as computed by
JavaScript `parseInt(s, 10)` on an all-digit string. -/
def digitsVal (l : List Char) : Nat := l.foldl (fun a c => a * 10 + digitVal c) 0

/-- Fuel-driven helper for `natToDigits`; the fuel only needs to exceed the
argument for the answer to be the full digit expansion. -/
def natToDigitsAux : Nat → Nat → List Char
  | 0, _ => []
  | fuel + 1, n =>
    if n < 10 then [digitChar n]
    else natToDigitsAux fuel (n / 10) ++ [digitChar (n % 10)]

/-- Big-endian decimal digits of a natural number: the JavaScript
`Number.prototype.toString` rendering of a non-negative integer. -/
def natToDigits (n : Nat) : List Char := natToDigitsAux (n + 1) n

theorem natToDigitsAux_fuel {n : Nat} :
    ∀ {f₁ f₂ : Nat}, n < f₁ → n < f₂ → natToDigitsAux f₁ n = natToDigitsAux f₂ n := by
  induction n using Nat.strong_induction_on with
  | _ n ih =>
    intro f₁ f₂ h₁ h₂
    match f₁, f₂ with
    | g₁ + 1, g₂ + 1 =>
      simp only [natToDigitsAux]
      split_ifs with h10
      · rfl
      · have hlt : n / 10 < n := Nat.div_lt_self (by omega) (by omega)
        rw [@ih (n / 10) hlt g₁ g₂ (by omega) (by omega)]

theorem natToDigits_def (n : Nat) :
    natToDigits n =
      if n < 10 then [digitChar n] else natToDigits (n / 10) ++ [digitChar (n % 10)] := by
  cases Nat.lt_or_ge n 10 with
  | inl h =>
    rw [if_pos h]
    show natToDigitsAux (n + 1) n = _
    simp only [natToDigitsAux, if_pos h]
  | inr h =>
    rw [if_neg (by omega)]
    show natToDigitsAux (n + 1) n = _
    have step : natToDigitsAux (n + 1) n = natToDigitsAux n (n / 10) ++ [digitChar (n % 10)] := by
      simp only [natToDigitsAux]
      rw [if_neg (by omega)]
    have hlt : n / 10 < n := Nat.div_lt_self (by omega) (by omega)
    have hfuel : natToDigitsAux n (n / 10) = natToDigitsAux (n / 10 + 1) (n / 10) :=
      natToDigitsAux_fuel (by omega) (by omega)
    rw [step, hfuel]
    rfl

theorem natToDigits_ne_nil (n : Nat) : natToDigits n ≠ [] := by
  rw [natToDigits_def]
  split <;> simp

theorem isDigitChar_digitChar {n : Nat} (h : n < 10) : isDigitChar (digitChar n) = true := by
  interval_cases n <;> decide

theorem digitVal_digitChar {n : Nat} (h : n < 10) : digitVal (digitChar n) = n := by
  interval_cases n <;> decide

theorem natToDigits_all_digit (n : Nat) : ∀ c ∈ natToDigits n, isDigitChar c = true := by
  induction n using Nat.strong_induction_on with
  | _ n ih =>
    rw [natToDigits_def]
    split
    · next h =>
      intro c hc
      simp only [List.mem_singleton] at hc
      subst hc
      exact isDigitChar_digitChar h
    · next h =>
      intro c hc
      rw [List.mem_append] at hc
      rcases hc with hc | hc
      · exact ih (n / 10) (Nat.div_lt_self (by omega) (by omega)) c hc
      · simp only [List.mem_singleton] at hc
        subst hc
        exact isDigitChar_digitChar (Nat.mod_lt _ (by omega))

theorem digitsVal_cons (c : Char) (l : List Char) :
    digitsVal (c :: l) = l.foldl (fun a c => a * 10 + digitVal c) (digitVal c) := by
  simp [digitsVal]

theorem digitsVal_foldl_acc (l : List Char) :
    ∀ a : Nat, l.foldl (fun a c => a * 10 + digitVal c) a = a * 10 ^ l.length + digitsVal l := by
  induction l with
  | nil => intro a; simp [digitsVal]
  | cons c t ih =>
    intro a
    simp only [List.foldl_cons, List.length_cons]
    rw [ih (a * 10 + digitVal c), digitsVal_cons,
      (by rw [ih (digitVal c)] : t.foldl (fun a c => a * 10 + digitVal c) (digitVal c)
        = digitVal c * 10 ^ t.length + digitsVal t)]
    ring

theorem digitsVal_append (l₁ l₂ : List Char) :
    digitsVal (l₁ ++ l₂) = digitsVal l₁ * 10 ^ l₂.length + digitsVal l₂ := by
  induction l₁ with
  | nil => simp [digitsVal]
  | cons c t ih =>
    simp only [List.cons_append, digitsVal_cons]
    rw [digitsVal_foldl_acc, digitsVal_foldl_acc, List.length_append]
    rw [ih, pow_add]
    ring

theorem digitsVal_natToDigits (n : Nat) : digitsVal (natToDigits n) = n := by
  induction n using Nat.strong_induction_on with
  | _ n ih =>
    rw [natToDigits_def]
    split
    · next h =>
      simp [digitsVal, digitVal_digitChar h]
    · next h =>
      rw [digitsVal_append, ih (n / 10) (Nat.div_lt_self (by omega) (by omega))]
      simp [digitsVal, digitVal_digitChar (Nat.mod_lt n (show 0 < 10 by omega))]
      omega

theorem natToDigits_length_le (n k : Nat) (hk : 0 < k) (h : n < 10 ^ k) :
    (natToDigits n).length ≤ k := by
  induction n using Nat.strong_induction_on generalizing k with
  | _ n ih =>
    rw [natToDigits_def]
    split
    · next h10 => simpa using hk
    · next h10 =>
      have hk2 : 2 ≤ k := by
        by_contra hc
        have : k = 1 := by omega
        subst this
        simp at h
        omega
      have hdiv : n / 10 < 10 ^ (k - 1) := by
        rw [Nat.div_lt_iff_lt_mul (by omega)]
        calc n < 10 ^ k := h
        _ = 10 ^ (k - 1) * 10 := by
            rw [← pow_succ]
            congr 1
            omega
      have := ih (n / 10) (Nat.div_lt_self (by omega) (by omega)) (k - 1) (by omega) hdiv
      simp only [List.length_append, List.length_singleton]
      omega

theorem digitsVal_zeros (k : Nat) (l : List Char) :
    digitsVal (List.replicate k '0' ++ l) = digitsVal l := by
  rw [digitsVal_append]
  have : digitsVal (List.replicate k '0') = 0 := by
    induction k with
    | zero => simp [digitsVal]
    | succ m ihm =>
      rw [List.replicate_succ, digitsVal_cons, digitsVal_foldl_acc]
      simpa [digitVal] using ihm
  simp [this]

/-! ## JavaScript string trimming -/

/-- White-space and line-terminator code points removed by JavaScript
`String.prototype.trim` (ECMA-262 TrimString). -/
def jsWhitespace (c : Char) : Bool :=
  c.toNat ∈ [0x9, 0xA, 0xB, 0xC, 0xD, 0x20, 0xA0, 0x1680,
    0x2000, 0x2001, 0x2002, 0x2003, 0x2004, 0x2005, 0x2006, 0x2007,
    0x2008, 0x2009, 0x200A, 0x2028, 0x2029, 0x202F, 0x205F, 0x3000, 0xFEFF]

/-- JavaScript `String.prototype.trim` on a character list: drop whitespace
from both ends. -/
def jsTrim (l : List Char) : List Char :=
  ((l.dropWhile jsWhitespace).reverse.dropWhile jsWhitespace).reverse

theorem dropWhile_eq_self_of_not {p : Char → Bool} (l : List Char)
    (h : ∀ c ∈ l, p c = false) : l.dropWhile p = l := by
  cases l with
  | nil => rfl
  | cons c t =>
    rw [List.dropWhile_cons_of_neg]
    simp [h c (List.mem_cons_self c t)]

theorem jsTrim_eq_self (l : List Char) (h : ∀ c ∈ l, jsWhitespace c = false) :
    jsTrim l = l := by
  unfold jsTrim
  rw [dropWhile_eq_self_of_not l h,
    dropWhile_eq_self_of_not l.reverse (fun c hc => h c (List.mem_reverse.mp hc)),
    List.reverse_reverse]

theorem not_jsWhitespace_of_digit {c : Char} (h : isDigitChar c = true) :
    jsWhitespace c = false := by
  simp only [isDigitChar, Bool.and_eq_true, decide_eq_true_eq] at h
  simp only [jsWhitespace, List.mem_cons, List.not_mem_nil, or_false, decide_eq_false_iff_not]
  omega

/-! ## Lap-time codec (src/unnamed/part_007 lines 40-50 and 86-113) -/

/-- JavaScript `String.prototype.padStart`. -/
def jsPadStart (s : String) (n : Nat) (c : Char) : String :=
  ⟨List.replicate (n - s.data.length) c ++ s.data⟩

/-- JavaScript `Number.prototype.toString` of a non-negative integer. -/
def natRepr (n : Nat) : String := ⟨natToDigits n⟩

/-- Embeds `formatLapTime` (src/unnamed/part_007 lines 40-50):
`totalSeconds = floor(ms/1000)`, `minutes = floor(totalSeconds/60)`,
`seconds = totalSeconds % 60`, `millis = ms % 1000`, rendered as
`minutes + ":" + pad2(seconds) + "." + pad3(millis)`. -/
def formatLapTime (ms : Nat) : String :=
  natRepr (ms / 1000 / 60) ++ ":" ++
    jsPadStart (natRepr (ms / 1000 % 60)) 2 '0' ++ "." ++
    jsPadStart (natRepr (ms % 1000)) 3 '0'

/-- Separator class `[.:]` of the source regexes. -/
def isSepChar (c : Char) : Bool := c = '.' || c = ':'

/-- Right-pads a milliseconds digit group to three digits with zeros,
embedding the `while (millis.length < 3) millis += "0"` loop. -/
def rightPad3 (l : List Char) : List Char := l ++ List.replicate (3 - l.length) '0'

/-- Matcher for the regex fragment `(\d{1})[.:](\d{1,3})$`: one seconds digit,
a separator, then one to three digit characters ending the string.  This is
the final backtracking alternative of both source regexes. -/
def matchSecMs1 (r : List Char) : Option (List Char × List Char) :=
  match r with
  | d1 :: sep :: rest =>
    if isDigitChar d1 && isSepChar sep && rest.all isDigitChar &&
        decide (1 ≤ rest.length) && decide (rest.length ≤ 3) then
      some ([d1], rest)
    else none
  | _ => none

/-- Matcher for the regex fragment `(\d{1,2})[.:](\d{1,3})$` with the greedy
backtracking order of the JavaScript engine: try a two-digit seconds group
first, then fall back to one digit. -/
def matchSecMs2 (r : List Char) : Option (List Char × List Char) :=
  match r with
  | d1 :: d2 :: sep :: rest =>
    if isDigitChar d1 && isDigitChar d2 && isSepChar sep && rest.all isDigitChar &&
        decide (1 ≤ rest.length) && decide (rest.length ≤ 3) then
      some ([d1, d2], rest)
    else matchSecMs1 r
  | _ => matchSecMs1 r

/-- Matcher for the anchored regex `^(\d{1,3})[.:](\d{1,3})$` (the source's
`secMatch` pattern), with the greedy backtracking order: three digits, then
two, then one. -/
def matchSec3 (l : List Char) : Option (List Char × List Char) :=
  match l with
  | d1 :: d2 :: d3 :: sep :: rest =>
    if isDigitChar d1 && isDigitChar d2 && isDigitChar d3 && isSepChar sep &&
        rest.all isDigitChar && decide (1 ≤ rest.length) && decide (rest.length ≤ 3) then
      some ([d1, d2, d3], rest)
    else matchSecMs2 l
  | _ => matchSecMs2 l

/-- Matcher for the anchored regex `^(\d+):(\d{1,2})[.:](\d{1,3})$` (the
source's `colonMatch` pattern): a maximal non-empty digit prefix, a literal
colon, then the seconds/milliseconds tail.  Returns the captured groups
(minutes digits, seconds digits, milliseconds digits). -/
def matchColon (l : List Char) : Option (List Char × List Char × List Char) :=
  match l.dropWhile isDigitChar with
  | ':' :: tail =>
    if (l.takeWhile isDigitChar).isEmpty then none
    else
      match matchSecMs2 tail with
      | some (b, c) => some (l.takeWhile isDigitChar, b, c)
      | none => none
  | _ => none

/-- Embeds `parseLapTime` (src/unnamed/part_007 lines 86-113): trim the
input, return `null` when empty, try the `M:SS[.:]mmm` regex, then the
`SS[.:]mmm` regex, else `null`.  Captured groups are converted with
`parseInt(_, 10)` after right-padding milliseconds to three digits. -/
def parseLapTime (input : String) : Option Nat :=
  if (jsTrim input.data).isEmpty then none
  else
    match matchColon (jsTrim input.data) with
    | some (a, b, c) =>
      some (digitsVal a * 60000 + digitsVal b * 1000 + digitsVal (rightPad3 c))
    | none =>
      match matchSec3 (jsTrim input.data) with
      | some (b, c) => some (digitsVal b * 1000 + digitsVal (rightPad3 c))
      | none => none

/-! ## Round-trip of the lap-time codec -/

theorem takeWhile_append_of_all {p : Char → Bool} (a rest : List Char) (y : Char)
    (ha : ∀ c ∈ a, p c = true) (hy : p y = false) :
    (a ++ y :: rest).takeWhile p = a := by
  induction a with
  | nil =>
    rw [List.nil_append, List.takeWhile_cons_of_neg (by simp [hy])]
  | cons c t ih =>
    rw [List.cons_append, List.takeWhile_cons_of_pos (ha c (List.mem_cons_self c t))]
    rw [ih (fun d hd => ha d (List.mem_cons_of_mem c hd))]

theorem dropWhile_append_of_all {p : Char → Bool} (a rest : List Char) (y : Char)
    (ha : ∀ c ∈ a, p c = true) (hy : p y = false) :
    (a ++ y :: rest).dropWhile p = y :: rest := by
  induction a with
  | nil =>
    rw [List.nil_append, List.dropWhile_cons_of_neg (by simp [hy])]
  | cons c t ih =>
    rw [List.cons_append, List.dropWhile_cons_of_pos (ha c (List.mem_cons_self c t))]
    exact ih (fun d hd => ha d (List.mem_cons_of_mem c hd))

theorem padded_digits (k n : Nat) :
    ∀ c ∈ List.replicate k '0' ++ natToDigits n, isDigitChar c = true := by
  intro c hc
  rw [List.mem_append] at hc
  rcases hc with hc | hc
  · rw [List.eq_of_mem_replicate hc]
    decide
  · exact natToDigits_all_digit n c hc

theorem padded_length {n k : Nat} (hk : 0 < k) (h : n < 10 ^ k) :
    (List.replicate (k - (natToDigits n).length) '0' ++ natToDigits n).length = k := by
  have hle := natToDigits_length_le n k hk h
  simp only [List.length_append, List.length_replicate]
  omega

theorem digitsVal_padded (k n : Nat) :
    digitsVal (List.replicate k '0' ++ natToDigits n) = n := by
  rw [digitsVal_zeros, digitsVal_natToDigits]

theorem matchSecMs2_cons (d1 d2 sep : Char) (rest : List Char) :
    matchSecMs2 (d1 :: d2 :: sep :: rest) =
      if isDigitChar d1 && isDigitChar d2 && isSepChar sep && rest.all isDigitChar &&
          decide (1 ≤ rest.length) && decide (rest.length ≤ 3) then
        some ([d1, d2], rest)
      else matchSecMs1 (d1 :: d2 :: sep :: rest) := rfl

/-- The character-level shape of `formatLapTime`: minute digits, a colon,
exactly two seconds digits, a dot, exactly three milliseconds digits. -/
theorem formatLapTime_data (ms : Nat) :
    (formatLapTime ms).data =
      natToDigits (ms / 1000 / 60) ++ ':' ::
        ((List.replicate (2 - (natToDigits (ms / 1000 % 60)).length) '0' ++
            natToDigits (ms / 1000 % 60)) ++ '.' ::
          (List.replicate (3 - (natToDigits (ms % 1000)).length) '0' ++
            natToDigits (ms % 1000))) := by
  simp only [formatLapTime, natRepr, jsPadStart, String.data_append]
  simp [List.append_assoc]

theorem parseLapTime_formatLapTime (ms : Nat) :
    parseLapTime (formatLapTime ms) = some ms := by
  have hS : ms / 1000 % 60 < 60 := Nat.mod_lt _ (by omega)
  have hL : ms % 1000 < 1000 := Nat.mod_lt _ (by omega)
  set sd := natToDigits (ms / 1000 % 60) with hsd
  set ld := natToDigits (ms % 1000) with hld
  set pad2 := List.replicate (2 - sd.length) '0' ++ sd with hpad2
  set pad3 := List.replicate (3 - ld.length) '0' ++ ld with hpad3
  have hdata : (formatLapTime ms).data =
      natToDigits (ms / 1000 / 60) ++ ':' :: (pad2 ++ '.' :: pad3) :=
    formatLapTime_data ms
  have hpad2_len : pad2.length = 2 := padded_length (by omega) (by omega)
  have hpad3_len : pad3.length = 3 := padded_length (by omega) (by omega)
  have hpad2_dig : ∀ c ∈ pad2, isDigitChar c = true := padded_digits _ _
  have hpad3_dig : ∀ c ∈ pad3, isDigitChar c = true := padded_digits _ _
  obtain ⟨s1, s2, hs⟩ := List.length_eq_two.mp hpad2_len
  obtain ⟨m1, m2, m3, hm⟩ := List.length_eq_three.mp hpad3_len
  have hnws : ∀ c ∈ (formatLapTime ms).data, jsWhitespace c = false := by
    intro c hc
    rw [hdata] at hc
    simp only [List.mem_append, List.mem_cons] at hc
    rcases hc with hc | hc | hc | hc | hc
    · exact not_jsWhitespace_of_digit (natToDigits_all_digit _ c hc)
    · subst hc; decide
    · exact not_jsWhitespace_of_digit (hpad2_dig c hc)
    · subst hc; decide
    · exact not_jsWhitespace_of_digit (hpad3_dig c hc)
  have htrim : jsTrim (formatLapTime ms).data = (formatLapTime ms).data :=
    jsTrim_eq_self _ hnws
  have hne : (formatLapTime ms).data ≠ [] := by
    rw [hdata]
    intro hcontra
    exact natToDigits_ne_nil _ (List.append_eq_nil.mp hcontra).1
  have htake : ((formatLapTime ms).data).takeWhile isDigitChar =
      natToDigits (ms / 1000 / 60) := by
    rw [hdata]
    exact takeWhile_append_of_all _ _ _ (natToDigits_all_digit _) (by decide)
  have hdrop : ((formatLapTime ms).data).dropWhile isDigitChar =
      ':' :: (pad2 ++ '.' :: pad3) := by
    rw [hdata]
    exact dropWhile_append_of_all _ _ _ (natToDigits_all_digit _) (by decide)
  have hs1 : isDigitChar s1 = true := hpad2_dig s1 (by rw [hs]; simp)
  have hs2 : isDigitChar s2 = true := hpad2_dig s2 (by rw [hs]; simp)
  rw [hm] at hpad3_dig
  have hall3 : ([m1, m2, m3].all isDigitChar) = true := List.all_eq_true.mpr hpad3_dig
  have hmatch2 : matchSecMs2 (pad2 ++ '.' :: pad3) = some (pad2, pad3) := by
    rw [hs, hm]
    show matchSecMs2 (s1 :: s2 :: '.' :: [m1, m2, m3]) = _
    rw [matchSecMs2_cons, if_pos]
    simp only [Bool.and_eq_true, decide_eq_true_eq]
    exact ⟨⟨⟨⟨⟨hs1, hs2⟩, by decide⟩, hall3⟩, by simp⟩, by simp⟩
  have hcolon : matchColon ((formatLapTime ms).data) =
      some (natToDigits (ms / 1000 / 60), pad2, pad3) := by
    unfold matchColon
    rw [htake, hdrop]
    simp only [hmatch2]
    rw [if_neg]
    simp only [List.isEmpty_iff]
    exact natToDigits_ne_nil _
  have hrp3 : rightPad3 pad3 = pad3 := by
    unfold rightPad3
    rw [hpad3_len]
    simp
  unfold parseLapTime
  rw [htrim]
  rw [if_neg (by simp only [List.isEmpty_iff]; exact hne)]
  rw [hcolon]
  show some (digitsVal (natToDigits (ms / 1000 / 60)) * 60000 +
    digitsVal pad2 * 1000 + digitsVal (rightPad3 pad3)) = some ms
  rw [hrp3, digitsVal_natToDigits, hpad2, hsd, digitsVal_padded,
    hpad3, hld, digitsVal_padded]
  congr 1
  omega

/-! ## Claims about the lap-time codec -/

/-- Modelled from the spec's wording for the encoder: output `M:SS.mmm`
with `M = floor(ms/60000)` rendered without padding, `SS = floor(ms/1000)
mod 60` zero-padded to two digits and `mmm = ms mod 1000` zero-padded to
three digits. -/
def specFormatLapTime (ms : Nat) : String :=
  natRepr (ms / 60000) ++ ":" ++
    jsPadStart (natRepr (ms / 1000 % 60)) 2 '0' ++ "." ++
    jsPadStart (natRepr (ms % 1000)) 3 '0'

/-- C7: for every non-negative integer ms, `formatLapTime ms` is the string
`M:SS.mmm` with `M = floor(ms/60000)` unpadded, `SS = floor(ms/1000) mod 60`
zero-padded to 2 digits and `mmm = ms mod 1000` zero-padded to 3 digits; in
particular `formatLapTime 114320 = "1:54.320"` and
`formatLapTime 3723001 = "62:03.001"`. -/
theorem claim_C7_formatLapTime :
    (∀ ms : Nat, formatLapTime ms = specFormatLapTime ms) ∧
      formatLapTime 114320 = "1:54.320" ∧ formatLapTime 3723001 = "62:03.001" := by
  refine ⟨fun ms => ?_, by decide, by decide⟩
  unfold formatLapTime specFormatLapTime
  rw [Nat.div_div_eq_div_mul]

/-- C1: for every integer ms in [0, 59999999], `parseLapTime (formatLapTime ms)`
is not `none`, and the reconstructed value has the same minutes component
(`floor(ms/60000)`), seconds component (`floor(ms/1000) mod 60`) and
milliseconds component (`ms mod 1000`) as ms. -/
theorem claim_C1_roundtrip (ms : Nat) (_h : ms ≤ 59999999) :
    ∃ v, parseLapTime (formatLapTime ms) = some v ∧
      v / 60000 = ms / 60000 ∧ v / 1000 % 60 = ms / 1000 % 60 ∧ v % 1000 = ms % 1000 :=
  ⟨ms, parseLapTime_formatLapTime ms, rfl, rfl, rfl⟩

/-- Witness for C1 at ms = 114320. -/
theorem claim_C1_roundtrip_witness :
    ∃ v, parseLapTime (formatLapTime 114320) = some v ∧
      v / 60000 = 114320 / 60000 ∧ v / 1000 % 60 = 114320 / 1000 % 60 ∧
      v % 1000 = 114320 % 1000 :=
  claim_C1_roundtrip 114320 (by decide)

/-- C10 (implicit claim): `parseLapTime` accepts seconds fields of 60 or
more when minutes are present — `parseLapTime "1:99.000" = some 159000`,
the same value as `parseLapTime "2:39.000"` — even though `formatLapTime`
never produces such a string (its seconds component is always below 60). -/
theorem claim_C10_seconds_overflow :
    parseLapTime "1:99.000" = some 159000 ∧ parseLapTime "2:39.000" = some 159000 ∧
      ∀ ms : Nat, formatLapTime ms ≠ "1:99.000" := by
  refine ⟨by decide, by decide, fun ms hcontra => ?_⟩
  have h1 := parseLapTime_formatLapTime ms
  rw [hcontra] at h1
  have h2 : parseLapTime "1:99.000" = some 159000 := by decide
  have hms : ms = 159000 := by
    have := h1.symm.trans h2
    exact Option.some_injective _ this
  subst hms
  exact absurd hcontra (by decide)

/-! ## The accepted language of parseLapTime (claim C8) -/

/-- Modelled from the spec: a character list is a textual lap time of value
`v` when it decomposes either as `M:SS[.:]mmm` (a non-empty digit group of
minutes, a colon, one or two seconds digits, a separator `.` or `:`, one to
three milliseconds digits) or as `SS[.:]mmm` (one to three seconds digits, a
separator, one to three milliseconds digits), the value being computed from
the digit groups with the milliseconds group right-padded with zeros to
three digits. -/
def LapTimeForm (l : List Char) (v : Nat) : Prop :=
  (∃ a b sep c, l = a ++ ':' :: (b ++ sep :: c) ∧
    (∀ x ∈ a, isDigitChar x = true) ∧ a ≠ [] ∧
    (∀ x ∈ b, isDigitChar x = true) ∧ 1 ≤ b.length ∧ b.length ≤ 2 ∧
    isSepChar sep = true ∧
    (∀ x ∈ c, isDigitChar x = true) ∧ 1 ≤ c.length ∧ c.length ≤ 3 ∧
    v = digitsVal a * 60000 + digitsVal b * 1000 + digitsVal (rightPad3 c)) ∨
  (∃ b sep c, l = b ++ sep :: c ∧
    (∀ x ∈ b, isDigitChar x = true) ∧ 1 ≤ b.length ∧ b.length ≤ 3 ∧
    isSepChar sep = true ∧
    (∀ x ∈ c, isDigitChar x = true) ∧ 1 ≤ c.length ∧ c.length ≤ 3 ∧
    v = digitsVal b * 1000 + digitsVal (rightPad3 c))

theorem isSepChar_not_digit {c : Char} (h : isSepChar c = true) : isDigitChar c = false := by
  simp only [isSepChar, Bool.or_eq_true, decide_eq_true_eq] at h
  rcases h with h | h <;> subst h <;> decide

theorem isDigitChar_not_sep {c : Char} (h : isDigitChar c = true) : isSepChar c = false := by
  simp only [isSepChar, Bool.or_eq_false_iff, decide_eq_false_iff_not]
  constructor <;> rintro rfl <;> exact absurd h (by decide)

theorem matchSecMs1_sound {r : List Char} {b c : List Char}
    (h : matchSecMs1 r = some (b, c)) :
    ∃ sep, r = b ++ sep :: c ∧ (∀ x ∈ b, isDigitChar x = true) ∧ b.length = 1 ∧
      isSepChar sep = true ∧ (∀ x ∈ c, isDigitChar x = true) ∧
      1 ≤ c.length ∧ c.length ≤ 3 := by
  match r with
  | [] => exact absurd h (by simp [matchSecMs1])
  | [d1] => exact absurd h (by simp [matchSecMs1])
  | d1 :: sep :: rest =>
    rw [show matchSecMs1 (d1 :: sep :: rest) =
        if isDigitChar d1 && isSepChar sep && rest.all isDigitChar &&
            decide (1 ≤ rest.length) && decide (rest.length ≤ 3) then
          some ([d1], rest)
        else none from rfl] at h
    split_ifs at h with hcond
    simp only [Option.some.injEq, Prod.mk.injEq] at h
    obtain ⟨hb, hc⟩ := h
    subst hb; subst hc
    simp only [Bool.and_eq_true, decide_eq_true_eq, List.all_eq_true] at hcond
    obtain ⟨⟨⟨⟨hd1, hsep⟩, hall⟩, h1⟩, h3⟩ := hcond
    exact ⟨sep, rfl, by simpa using hd1, rfl, hsep, hall, h1, h3⟩

theorem matchSecMs2_sound {r : List Char} {b c : List Char}
    (h : matchSecMs2 r = some (b, c)) :
    ∃ sep, r = b ++ sep :: c ∧ (∀ x ∈ b, isDigitChar x = true) ∧
      1 ≤ b.length ∧ b.length ≤ 2 ∧
      isSepChar sep = true ∧ (∀ x ∈ c, isDigitChar x = true) ∧
      1 ≤ c.length ∧ c.length ≤ 3 := by
  have fallback : matchSecMs1 r = some (b, c) →
      ∃ sep, r = b ++ sep :: c ∧ (∀ x ∈ b, isDigitChar x = true) ∧
        1 ≤ b.length ∧ b.length ≤ 2 ∧
        isSepChar sep = true ∧ (∀ x ∈ c, isDigitChar x = true) ∧
        1 ≤ c.length ∧ c.length ≤ 3 := by
    intro h1
    obtain ⟨sep, hr, hb, hb1, hsep, hc, hc1, hc3⟩ := matchSecMs1_sound h1
    exact ⟨sep, hr, hb, by omega, by omega, hsep, hc, hc1, hc3⟩
  match r with
  | [] => exact fallback h
  | [d1] => exact fallback h
  | [d1, d2] => exact fallback h
  | d1 :: d2 :: sep :: rest =>
    rw [matchSecMs2_cons] at h
    split_ifs at h with hcond
    · simp only [Option.some.injEq, Prod.mk.injEq] at h
      obtain ⟨hb, hc⟩ := h
      subst hb; subst hc
      simp only [Bool.and_eq_true, decide_eq_true_eq, List.all_eq_true] at hcond
      obtain ⟨⟨⟨⟨⟨hd1, hd2⟩, hsep⟩, hall⟩, h1⟩, h3⟩ := hcond
      refine ⟨sep, rfl, ?_, by simp, by simp, hsep, hall, h1, h3⟩
      intro x hx
      rcases List.mem_cons.mp hx with hx | hx
      · subst hx; exact hd1
      · rcases List.mem_cons.mp hx with hx | hx
        · subst hx; exact hd2
        · simp at hx
    · exact fallback h

theorem matchSec3_sound {l : List Char} {b c : List Char}
    (h : matchSec3 l = some (b, c)) :
    ∃ sep, l = b ++ sep :: c ∧ (∀ x ∈ b, isDigitChar x = true) ∧
      1 ≤ b.length ∧ b.length ≤ 3 ∧
      isSepChar sep = true ∧ (∀ x ∈ c, isDigitChar x = true) ∧
      1 ≤ c.length ∧ c.length ≤ 3 := by
  have fallback : matchSecMs2 l = some (b, c) →
      ∃ sep, l = b ++ sep :: c ∧ (∀ x ∈ b, isDigitChar x = true) ∧
        1 ≤ b.length ∧ b.length ≤ 3 ∧
        isSepChar sep = true ∧ (∀ x ∈ c, isDigitChar x = true) ∧
        1 ≤ c.length ∧ c.length ≤ 3 := by
    intro h2
    obtain ⟨sep, hr, hb, hb1, hb2, hsep, hc, hc1, hc3⟩ := matchSecMs2_sound h2
    exact ⟨sep, hr, hb, hb1, by omega, hsep, hc, hc1, hc3⟩
  match l with
  | [] => exact fallback h
  | [d1] => exact fallback h
  | [d1, d2] => exact fallback h
  | [d1, d2, d3] => exact fallback h
  | d1 :: d2 :: d3 :: sep :: rest =>
    rw [show matchSec3 (d1 :: d2 :: d3 :: sep :: rest) =
        if isDigitChar d1 && isDigitChar d2 && isDigitChar d3 && isSepChar sep &&
            rest.all isDigitChar && decide (1 ≤ rest.length) && decide (rest.length ≤ 3) then
          some ([d1, d2, d3], rest)
        else matchSecMs2 (d1 :: d2 :: d3 :: sep :: rest) from rfl] at h
    split_ifs at h with hcond
    · simp only [Option.some.injEq, Prod.mk.injEq] at h
      obtain ⟨hb, hc⟩ := h
      subst hb; subst hc
      simp only [Bool.and_eq_true, decide_eq_true_eq, List.all_eq_true] at hcond
      obtain ⟨⟨⟨⟨⟨⟨hd1, hd2⟩, hd3⟩, hsep⟩, hall⟩, h1⟩, h3⟩ := hcond
      refine ⟨sep, rfl, ?_, by simp, by simp, hsep, hall, h1, h3⟩
      intro x hx
      rcases List.mem_cons.mp hx with hx | hx
      · subst hx; exact hd1
      rcases List.mem_cons.mp hx with hx | hx
      · subst hx; exact hd2
      rcases List.mem_cons.mp hx with hx | hx
      · subst hx; exact hd3
      · simp at hx
    · exact fallback h

theorem matchSecMs1_complete (b1 sep : Char) (c : List Char)
    (hb1 : isDigitChar b1 = true) (hsep : isSepChar sep = true)
    (hc : ∀ x ∈ c, isDigitChar x = true) (hc1 : 1 ≤ c.length) (hc3 : c.length ≤ 3) :
    matchSecMs1 (b1 :: sep :: c) = some ([b1], c) := by
  rw [show matchSecMs1 (b1 :: sep :: c) =
      if isDigitChar b1 && isSepChar sep && c.all isDigitChar &&
          decide (1 ≤ c.length) && decide (c.length ≤ 3) then
        some ([b1], c)
      else none from rfl]
  rw [if_pos]
  simp only [Bool.and_eq_true, decide_eq_true_eq, List.all_eq_true]
  exact ⟨⟨⟨⟨hb1, hsep⟩, hc⟩, hc1⟩, hc3⟩

theorem matchSecMs2_complete (b : List Char) (sep : Char) (c : List Char)
    (hb : ∀ x ∈ b, isDigitChar x = true) (hb1 : 1 ≤ b.length) (hb2 : b.length ≤ 2)
    (hsep : isSepChar sep = true)
    (hc : ∀ x ∈ c, isDigitChar x = true) (hc1 : 1 ≤ c.length) (hc3 : c.length ≤ 3) :
    matchSecMs2 (b ++ sep :: c) = some (b, c) := by
  match b, hb1, hb2 with
  | [b1], _, _ =>
    obtain ⟨c1, ctail, rfl⟩ : ∃ x xs, c = x :: xs := by
      cases c with
      | nil => simp at hc1
      | cons x xs => exact ⟨x, xs, rfl⟩
    show matchSecMs2 (b1 :: sep :: c1 :: ctail) = _
    rw [matchSecMs2_cons, if_neg]
    · exact matchSecMs1_complete b1 sep (c1 :: ctail) (hb b1 (by simp)) hsep hc hc1 hc3
    · simp [isSepChar_not_digit hsep]
  | [b1, b2], _, _ =>
    show matchSecMs2 (b1 :: b2 :: sep :: c) = _
    rw [matchSecMs2_cons, if_pos]
    simp only [Bool.and_eq_true, decide_eq_true_eq, List.all_eq_true]
    exact ⟨⟨⟨⟨⟨hb b1 (by simp), hb b2 (by simp)⟩, hsep⟩, hc⟩, hc1⟩, hc3⟩

theorem matchSecMs2_digits_none (c : List Char)
    (hc : ∀ x ∈ c, isDigitChar x = true) (hlen : c.length ≤ 3) :
    matchSecMs2 c = none := by
  match c, hlen with
  | [], _ => rfl
  | [c1], _ => rfl
  | [c1, c2], _ =>
    show matchSecMs1 [c1, c2] = none
    rw [show matchSecMs1 [c1, c2] =
        if isDigitChar c1 && isSepChar c2 && ([] : List Char).all isDigitChar &&
            decide (1 ≤ ([] : List Char).length) && decide (([] : List Char).length ≤ 3) then
          some ([c1], ([] : List Char))
        else none from rfl]
    rw [if_neg]
    simp
  | [c1, c2, c3], _ =>
    rw [matchSecMs2_cons, if_neg]
    · show matchSecMs1 [c1, c2, c3] = none
      rw [show matchSecMs1 [c1, c2, c3] =
          if isDigitChar c1 && isSepChar c2 && [c3].all isDigitChar &&
              decide (1 ≤ [c3].length) && decide ([c3].length ≤ 3) then
            some ([c1], [c3])
          else none from rfl]
      rw [if_neg]
      simp [isDigitChar_not_sep (hc c2 (by simp))]
    · simp

theorem matchSec3_cons (d1 d2 d3 sep : Char) (rest : List Char) :
    matchSec3 (d1 :: d2 :: d3 :: sep :: rest) =
      if isDigitChar d1 && isDigitChar d2 && isDigitChar d3 && isSepChar sep &&
          rest.all isDigitChar && decide (1 ≤ rest.length) && decide (rest.length ≤ 3) then
        some ([d1, d2, d3], rest)
      else matchSecMs2 (d1 :: d2 :: d3 :: sep :: rest) := rfl

theorem matchSec3_complete (b : List Char) (sep : Char) (c : List Char)
    (hb : ∀ x ∈ b, isDigitChar x = true) (hb1 : 1 ≤ b.length) (hb3 : b.length ≤ 3)
    (hsep : isSepChar sep = true)
    (hc : ∀ x ∈ c, isDigitChar x = true) (hc1 : 1 ≤ c.length) (hc3 : c.length ≤ 3) :
    matchSec3 (b ++ sep :: c) = some (b, c) := by
  match b, hb1, hb3 with
  | [b1], _, _ =>
    obtain ⟨c1, ctail, rfl⟩ : ∃ x xs, c = x :: xs := by
      cases c with
      | nil => simp at hc1
      | cons x xs => exact ⟨x, xs, rfl⟩
    match ctail with
    | [] =>
      show matchSecMs2 [b1, sep, c1] = _
      exact matchSecMs2_complete [b1] sep [c1] hb (by simp) (by simp) hsep hc hc1 hc3
    | c2 :: ctail2 =>
      show matchSec3 (b1 :: sep :: c1 :: c2 :: ctail2) = _
      rw [matchSec3_cons, if_neg]
      · exact matchSecMs2_complete [b1] sep (c1 :: c2 :: ctail2) hb (by simp) (by simp)
          hsep hc hc1 hc3
      · simp [isSepChar_not_digit hsep]
  | [b1, b2], _, _ =>
    obtain ⟨c1, ctail, rfl⟩ : ∃ x xs, c = x :: xs := by
      cases c with
      | nil => simp at hc1
      | cons x xs => exact ⟨x, xs, rfl⟩
    show matchSec3 (b1 :: b2 :: sep :: c1 :: ctail) = _
    rw [matchSec3_cons, if_neg]
    · exact matchSecMs2_complete [b1, b2] sep (c1 :: ctail) hb (by simp) (by simp)
        hsep hc hc1 hc3
    · simp [isSepChar_not_digit hsep]
  | [b1, b2, b3], _, _ =>
    show matchSec3 (b1 :: b2 :: b3 :: sep :: c) = _
    rw [matchSec3_cons, if_pos]
    simp only [Bool.and_eq_true, decide_eq_true_eq, List.all_eq_true]
    exact ⟨⟨⟨⟨⟨⟨hb b1 (by simp), hb b2 (by simp)⟩, hb b3 (by simp)⟩, hsep⟩, hc⟩, hc1⟩, hc3⟩

theorem matchColon_sound {l : List Char} {a b c : List Char}
    (h : matchColon l = some (a, b, c)) :
    ∃ sep, l = a ++ ':' :: (b ++ sep :: c) ∧
      (∀ x ∈ a, isDigitChar x = true) ∧ a ≠ [] ∧
      (∀ x ∈ b, isDigitChar x = true) ∧ 1 ≤ b.length ∧ b.length ≤ 2 ∧
      isSepChar sep = true ∧ (∀ x ∈ c, isDigitChar x = true) ∧
      1 ≤ c.length ∧ c.length ≤ 3 := by
  unfold matchColon at h
  split at h
  · next tail heq =>
    split_ifs at h with hemp
    split at h
    · next b0 c0 hm =>
      simp only [Option.some.injEq, Prod.mk.injEq] at h
      obtain ⟨ha, hb0, hc0⟩ := h
      subst ha; subst hb0; subst hc0
      obtain ⟨sep, htail, hbd, hb1, hb2, hsep, hcd, hc1, hc3⟩ := matchSecMs2_sound hm
      refine ⟨sep, ?_, fun x hx => List.mem_takeWhile_imp hx, ?_, hbd, hb1, hb2, hsep,
        hcd, hc1, hc3⟩
      · conv_lhs => rw [← List.takeWhile_append_dropWhile isDigitChar l]
        rw [heq, htail]
      · simpa [List.isEmpty_iff] using hemp
    · exact absurd h (by simp)
  · exact absurd h (by simp)

theorem matchColon_complete (a b : List Char) (sep : Char) (c : List Char)
    (ha : ∀ x ∈ a, isDigitChar x = true) (hane : a ≠ [])
    (hb : ∀ x ∈ b, isDigitChar x = true) (hb1 : 1 ≤ b.length) (hb2 : b.length ≤ 2)
    (hsep : isSepChar sep = true)
    (hc : ∀ x ∈ c, isDigitChar x = true) (hc1 : 1 ≤ c.length) (hc3 : c.length ≤ 3) :
    matchColon (a ++ ':' :: (b ++ sep :: c)) = some (a, b, c) := by
  unfold matchColon
  rw [takeWhile_append_of_all a _ ':' ha (by decide),
    dropWhile_append_of_all a _ ':' ha (by decide)]
  simp only [matchSecMs2_complete b sep c hb hb1 hb2 hsep hc hc1 hc3]
  rw [if_neg]
  simp only [List.isEmpty_iff]
  exact hane

theorem matchColon_none_secform (b : List Char) (sep : Char) (c : List Char)
    (hb : ∀ x ∈ b, isDigitChar x = true) (hb1 : 1 ≤ b.length)
    (hsep : isSepChar sep = true)
    (hc : ∀ x ∈ c, isDigitChar x = true) (hc3 : c.length ≤ 3) :
    matchColon (b ++ sep :: c) = none := by
  unfold matchColon
  rw [takeWhile_append_of_all b _ sep hb (isSepChar_not_digit hsep),
    dropWhile_append_of_all b _ sep hb (isSepChar_not_digit hsep)]
  have hsep2 : sep = '.' ∨ sep = ':' := by
    simpa [isSepChar] using hsep
  rcases hsep2 with rfl | rfl
  · rfl
  · simp only [matchSecMs2_digits_none c hc hc3]
    rw [if_neg]
    simp only [List.isEmpty_iff]
    intro hcontra
    subst hcontra
    simp at hb1

theorem parseLapTime_sound (s : String) (v : Nat) (h : parseLapTime s = some v) :
    LapTimeForm (jsTrim s.data) v := by
  unfold parseLapTime at h
  split_ifs at h with hemp
  split at h
  · next a b c hcol =>
    simp only [Option.some.injEq] at h
    obtain ⟨sep, hl, ha, hane, hbd, hb1, hb2, hsep, hcd, hc1, hc3⟩ := matchColon_sound hcol
    exact Or.inl ⟨a, b, sep, c, hl, ha, hane, hbd, hb1, hb2, hsep, hcd, hc1, hc3, h.symm⟩
  · split at h
    · next b c hsec =>
      simp only [Option.some.injEq] at h
      obtain ⟨sep, hl, hbd, hb1, hb3, hsep, hcd, hc1, hc3⟩ := matchSec3_sound hsec
      exact Or.inr ⟨b, sep, c, hl, hbd, hb1, hb3, hsep, hcd, hc1, hc3, h.symm⟩
    · exact absurd h (by simp)

theorem parseLapTime_complete (s : String) (v : Nat) (h : LapTimeForm (jsTrim s.data) v) :
    parseLapTime s = some v := by
  unfold parseLapTime
  rcases h with ⟨a, b, sep, c, hl, ha, hane, hbd, hb1, hb2, hsep, hcd, hc1, hc3, hv⟩ |
    ⟨b, sep, c, hl, hbd, hb1, hb3, hsep, hcd, hc1, hc3, hv⟩
  · rw [hl]
    rw [if_neg (by simp [List.isEmpty_iff, hane])]
    simp only [matchColon_complete a b sep c ha hane hbd hb1 hb2 hsep hcd hc1 hc3]
    rw [hv]
  · obtain ⟨b1, btail, rfl⟩ : ∃ x xs, b = x :: xs := by
      cases b with
      | nil => simp at hb1
      | cons x xs => exact ⟨x, xs, rfl⟩
    rw [hl]
    rw [if_neg (by simp [List.isEmpty_iff])]
    simp only [matchColon_none_secform (b1 :: btail) sep c hbd hb1 hsep hcd hc3]
    simp only [matchSec3_complete (b1 :: btail) sep c hbd hb1 hb3 hsep hcd hc1 hc3]
    rw [hv]

/-- C8 counterexample: the claim says `parseLapTime` succeeds on exactly the
strings of the two textual forms, but the source trims surrounding
whitespace first, so `" 1:54.320"` (which starts with a space and hence is
of neither form) is also accepted. -/
theorem claim_C8_counterexample :
    parseLapTime " 1:54.320" = some 114320 ∧
      ¬ ∃ v, LapTimeForm (String.data " 1:54.320") v := by
  refine ⟨by decide, ?_⟩
  have hd : String.data " 1:54.320" = ' ' :: String.data "1:54.320" := by decide
  rintro ⟨v, ⟨a, b, sep, c, hl, ha, hane, _⟩ | ⟨b, sep, c, hl, hb, hb1, _⟩⟩
  · obtain ⟨a1, a', rfl⟩ : ∃ x xs, a = x :: xs := by
      cases a with
      | nil => exact absurd rfl hane
      | cons x xs => exact ⟨x, xs, rfl⟩
    rw [hd] at hl
    simp only [List.cons_append] at hl
    injection hl with h1 h2
    have hdig := ha a1 (List.mem_cons_self a1 a')
    rw [← h1] at hdig
    exact absurd hdig (by decide)
  · obtain ⟨b1, b', rfl⟩ : ∃ x xs, b = x :: xs := by
      cases b with
      | nil => simp at hb1
      | cons x xs => exact ⟨x, xs, rfl⟩
    rw [hd] at hl
    simp only [List.cons_append] at hl
    injection hl with h1 h2
    have hdig := hb b1 (List.mem_cons_self b1 b')
    rw [← h1] at hdig
    exact absurd hdig (by decide)

/-- C8 (amended): up to the whitespace trimming that `parseLapTime` applies
first, it returns a millisecond value for exactly the strings of the form
`M:SS[.:]mmm` or `SS[.:]mmm` (as captured by `LapTimeForm`, which right-pads
a short milliseconds group with zeros), and `none` for every other string;
in particular `parseLapTime "1:54.320" = some 114320`,
`parseLapTime "54.3" = some 54300` and `parseLapTime "abc" = none`. -/
theorem claim_C8_parse_language :
    (∀ (s : String) (v : Nat), parseLapTime s = some v → LapTimeForm (jsTrim s.data) v) ∧
    (∀ (s : String) (v : Nat), LapTimeForm (jsTrim s.data) v → parseLapTime s = some v) ∧
    parseLapTime "1:54.320" = some 114320 ∧
    parseLapTime "54.3" = some 54300 ∧
    parseLapTime "abc" = none :=
  ⟨parseLapTime_sound, parseLapTime_complete, by decide, by decide, by decide⟩

/-- Witness for C8: the accepted string "1:54.320" indeed has the specified
form with value 114320. -/
theorem claim_C8_parse_language_witness :
    LapTimeForm (jsTrim (String.data "1:54.320")) 114320 :=
  claim_C8_parse_language.1 "1:54.320" 114320 (by decide)
/-! ## Deep-link helpers (src/unnamed/part_008) -/

/-- UTF-8 bytes of a Unicode scalar value. -/
def utf8Bytes (c : Char) : List Nat :=
  if c.toNat < 0x80 then [c.toNat]
  else if c.toNat < 0x800 then [0xC0 + c.toNat / 0x40, 0x80 + c.toNat % 0x40]
  else if c.toNat < 0x10000 then
    [0xE0 + c.toNat / 0x1000, 0x80 + c.toNat / 0x40 % 0x40, 0x80 + c.toNat % 0x40]
  else
    [0xF0 + c.toNat / 0x40000, 0x80 + c.toNat / 0x1000 % 0x40,
      0x80 + c.toNat / 0x40 % 0x40, 0x80 + c.toNat % 0x40]

/-- Upper-case hexadecimal digit. -/
def hexDigitChar (n : Nat) : Char :=
  if n < 10 then Char.ofNat (48 + n) else Char.ofNat (55 + n)

/-- Percent-escape of one byte, upper-case, as produced by both
`encodeURIComponent` and the `URLSearchParams` serializer. -/
def percentEncodeByte (b : Nat) : List Char :=
  ['%', hexDigitChar (b / 16), hexDigitChar (b % 16)]

/-- Characters left unescaped by JavaScript `encodeURIComponent`
(ECMA-262: alphanumeric and `- _ . ! ~ * ' ( )`; code point 39 is the
apostrophe). -/
def encodeURIComponentKeep (c : Char) : Bool :=
  c.isAlpha || c.isDigit || c = '-' || c = '_' || c = '.' || c = '!' || c = '~' ||
    c = '*' || c.toNat = 39 || c = '(' || c = ')'

/-- JavaScript `encodeURIComponent`: percent-encodes the UTF-8 bytes of
every character outside its unescaped set. -/
def encodeURIComponent (s : String) : String :=
  ⟨s.data.flatMap fun c =>
    if encodeURIComponentKeep c then [c]
    else (utf8Bytes c).flatMap percentEncodeByte⟩

/-- Characters kept verbatim by the `application/x-www-form-urlencoded`
serializer used by `URLSearchParams.toString` (alphanumeric and `* - . _`). -/
def formUrlKeep (c : Char) : Bool :=
  c.isAlpha || c.isDigit || c = '*' || c = '-' || c = '.' || c = '_'

/-- The `application/x-www-form-urlencoded` encoding of one string: space
becomes `+`, the safe set is kept, every other character has its UTF-8
bytes percent-encoded. -/
def formUrlEncode (s : String) : String :=
  ⟨s.data.flatMap fun c =>
    if c = ' ' then ['+']
    else if formUrlKeep c then [c]
    else (utf8Bytes c).flatMap percentEncodeByte⟩

/-- Serialization of `URLSearchParams`: pairs in insertion order,
`key=value` joined by `&`, each side form-url-encoded. -/
def urlSearchParamsToString (pairs : List (String × String)) : String :=
  match pairs with
  | [] => ""
  | [p] => formUrlEncode p.1 ++ "=" ++ formUrlEncode p.2
  | p :: rest => formUrlEncode p.1 ++ "=" ++ formUrlEncode p.2 ++ "&" ++
      urlSearchParamsToString rest

/-- Deep-link version constant of the source. -/
def DEEP_LINK_VERSION : String := "1"

/-- Deep-link scheme constant of the source. -/
def DEEP_LINK_SCHEME : String := "trackmate://"

/-- Deep-link path constant of the source. -/
def TIMING_PATH : String := "timing"

/-- Embeds `buildTimingDeepLink` (src/unnamed/part_008 lines 65-92): `null`
when `trackId` is falsy, otherwise the scheme and path followed by the
`URLSearchParams` serialization of `v`, `trackId` (always, value passed
through `encodeURIComponent`), then `carId` and `conditions` when truthy,
in that insertion order.  The optional arguments model the optional
(possibly `undefined`) TypeScript fields. -/
def buildTimingDeepLink (trackId : String) (carId : Option String)
    (conditions : Option String) : Option String :=
  if trackId = "" then none
  else
    some (DEEP_LINK_SCHEME ++ TIMING_PATH ++ "?" ++ urlSearchParamsToString (
      [("v", DEEP_LINK_VERSION), ("trackId", encodeURIComponent trackId)] ++
      (match carId with
       | some c => if c = "" then [] else [("carId", encodeURIComponent c)]
       | none => []) ++
      (match conditions with
       | some c => if c = "" then [] else [("conditions", encodeURIComponent c)]
       | none => [])))

/-- Wire enum of track conditions accepted by the timing app
(`TrackConditions` in src/unnamed/part_008). -/
inductive TrackConditions where
  | dry
  | damp
  | wet
deriving DecidableEq

/-- Embeds `normalizeConditions` (src/unnamed/part_008 lines 116-129): maps
the UI vocabulary to the three-value wire vocabulary, `undefined` (here
`none`) for anything unrecognised. -/
def normalizeConditions (uiConditions : String) : Option TrackConditions :=
  if uiConditions = "dry_warm" ∨ uiConditions = "dry_cool" ∨ uiConditions = "dry" then
    some TrackConditions.dry
  else if uiConditions = "damp" then some TrackConditions.damp
  else if uiConditions = "wet" then some TrackConditions.wet
  else none

/-- Amended claim's rendering of an optional query parameter: absent when
the option is not truthy, otherwise an ampersand, the key, an equals sign
and the double-encoded value. -/
def deepLinkOptPart (key : String) (o : Option String) : String :=
  match o with
  | some c =>
    if c = "" then "" else "&" ++ key ++ "=" ++ formUrlEncode (encodeURIComponent c)
  | none => ""

/-- C2 (amended): `buildTimingDeepLink` returns `null` iff `trackId` is
falsy/empty; for every other input it returns exactly the string
`trackmate://timing?` followed by `v=1`, then `trackId`, then `carId`
(only when truthy), then `conditions` (only when truthy), in this exact
order, where each value is the `URLSearchParams` form-url-encoding of the
`encodeURIComponent` encoding of the input (a double encoding); in
particular the claim's example link is produced verbatim. -/
theorem claim_C2_buildTimingDeepLink :
    (∀ (trackId : String) (carId conditions : Option String),
      buildTimingDeepLink trackId carId conditions = none ↔ trackId = "") ∧
    (∀ (trackId : String) (carId conditions : Option String), trackId ≠ "" →
      buildTimingDeepLink trackId carId conditions =
        some ("trackmate://timing?v=1&trackId=" ++
          formUrlEncode (encodeURIComponent trackId) ++
          deepLinkOptPart "carId" carId ++ deepLinkOptPart "conditions" conditions)) ∧
    buildTimingDeepLink "abc-123" (some "def-456") (some "dry") =
      some "trackmate://timing?v=1&trackId=abc-123&carId=def-456&conditions=dry" := by
  refine ⟨?_, ?_, by decide⟩
  · intro trackId carId conditions
    unfold buildTimingDeepLink
    split_ifs with h
    · simp [h]
    · simp [h]
  · intro trackId carId conditions h
    unfold buildTimingDeepLink
    rw [if_neg h]
    congr 1
    rcases carId with _ | c <;> rcases conditions with _ | d
    · apply String.ext
      simp [deepLinkOptPart, urlSearchParamsToString,
        DEEP_LINK_SCHEME, TIMING_PATH, DEEP_LINK_VERSION,
        String.data_append, List.append_assoc,
        show formUrlEncode "v" = "v" from by decide,
        show formUrlEncode "1" = "1" from by decide,
        show formUrlEncode "trackId" = "trackId" from by decide]
    · by_cases hd : d = "" <;>
        (apply String.ext
         simp [deepLinkOptPart, urlSearchParamsToString,
           DEEP_LINK_SCHEME, TIMING_PATH, DEEP_LINK_VERSION,
           String.data_append, List.append_assoc, hd,
           show formUrlEncode "v" = "v" from by decide,
           show formUrlEncode "1" = "1" from by decide,
           show formUrlEncode "trackId" = "trackId" from by decide,
           show formUrlEncode "conditions" = "conditions" from by decide])
    · by_cases hc : c = "" <;>
        (apply String.ext
         simp [deepLinkOptPart, urlSearchParamsToString,
           DEEP_LINK_SCHEME, TIMING_PATH, DEEP_LINK_VERSION,
           String.data_append, List.append_assoc, hc,
           show formUrlEncode "v" = "v" from by decide,
           show formUrlEncode "1" = "1" from by decide,
           show formUrlEncode "trackId" = "trackId" from by decide,
           show formUrlEncode "carId" = "carId" from by decide])
    · by_cases hc : c = "" <;> by_cases hd : d = "" <;>
        (apply String.ext
         simp [deepLinkOptPart, urlSearchParamsToString,
           DEEP_LINK_SCHEME, TIMING_PATH, DEEP_LINK_VERSION,
           String.data_append, List.append_assoc, hc, hd,
           show formUrlEncode "v" = "v" from by decide,
           show formUrlEncode "1" = "1" from by decide,
           show formUrlEncode "trackId" = "trackId" from by decide,
           show formUrlEncode "carId" = "carId" from by decide,
           show formUrlEncode "conditions" = "conditions" from by decide])

/-- Witness for C2 at the claim's example input. -/
theorem claim_C2_buildTimingDeepLink_witness :
    buildTimingDeepLink "abc-123" (some "def-456") (some "dry") =
      some ("trackmate://timing?v=1&trackId=" ++
        formUrlEncode (encodeURIComponent "abc-123") ++
        deepLinkOptPart "carId" (some "def-456") ++
        deepLinkOptPart "conditions" (some "dry")) :=
  claim_C2_buildTimingDeepLink.2.1 "abc-123" (some "def-456") (some "dry") (by decide)

/-- C2 counterexample: the claim says the `trackId` value in the produced
link is the percent-encoding of the input, but the source passes the
already-percent-encoded value through the `URLSearchParams` serializer
again, so for `trackId = "a b"` the link carries the double-encoded
`a%2520b` rather than the percent-encoding `a%20b`. -/
theorem claim_C2_counterexample :
    buildTimingDeepLink "a b" none none = some "trackmate://timing?v=1&trackId=a%2520b" ∧
      encodeURIComponent "a b" = "a%20b" ∧
      some "trackmate://timing?v=1&trackId=a%2520b" ≠
        some ("trackmate://timing?v=1&trackId=" ++ encodeURIComponent "a b") := by
  refine ⟨by decide, by decide, by decide⟩

/-- C3 counterexample: `normalizeConditions` also maps the already-wire
value `"dry"` to `"dry"`, although `"dry"` is none of the four listed UI
inputs, so the claim's "every other input string returns undefined" fails
at `"dry"`. -/
theorem claim_C3_counterexample :
    normalizeConditions "dry" = some TrackConditions.dry ∧
      ("dry" ≠ "dry_warm" ∧ "dry" ≠ "dry_cool" ∧ "dry" ≠ "damp" ∧ "dry" ≠ "wet") ∧
      normalizeConditions "dry" ≠ none := by
  refine ⟨by decide, ⟨by decide, by decide, by decide, by decide⟩, by decide⟩

/-- C3 (amended): `normalizeConditions` maps `dry_warm`, `dry_cool` and
also the pass-through `dry` to `dry`, `damp` to `damp`, `wet` to `wet`,
and returns `undefined` (here `none`, an unset value rather than an error)
for every string outside these five; in particular
`normalizeConditions "unknown" = none`. -/
theorem claim_C3_normalizeConditions :
    normalizeConditions "dry_warm" = some TrackConditions.dry ∧
    normalizeConditions "dry_cool" = some TrackConditions.dry ∧
    normalizeConditions "dry" = some TrackConditions.dry ∧
    normalizeConditions "damp" = some TrackConditions.damp ∧
    normalizeConditions "wet" = some TrackConditions.wet ∧
    normalizeConditions "unknown" = none ∧
    (∀ s : String, s ≠ "dry_warm" → s ≠ "dry_cool" → s ≠ "dry" → s ≠ "damp" → s ≠ "wet" →
      normalizeConditions s = none) := by
  refine ⟨by decide, by decide, by decide, by decide, by decide, by decide, ?_⟩
  intro s h1 h2 h3 h4 h5
  simp [normalizeConditions, h1, h2, h3, h4, h5]

/-- Witness for C3 at the unlisted input "foo". -/
theorem claim_C3_normalizeConditions_witness : normalizeConditions "foo" = none :=
  claim_C3_normalizeConditions.2.2.2.2.2.2 "foo" (by decide) (by decide) (by decide)
    (by decide) (by decide)

/-! ## Manual lap entry (src/unnamed/part_007, handleAddLap and handleAddQsLap) -/

/-- Row inserted into the `laps` table by the single-lap form. -/
structure LapRow where
  user_id : String
  car_id : String
  track_id : String
  lap_time_ms : Nat
  date : Option String
  is_public : Bool
  source : String
  is_verified : Bool
  session_label : Option String
  conditions : Option String
  temperature_band : Option String
deriving DecidableEq

/-- Models the JavaScript `x || null` idiom used for optional text fields. -/
def jsOrNull (s : String) : Option String := if s = "" then none else some s

/-- Outcome of the single-lap submission logic: either a user-facing error
message (nothing persisted) or the row handed to the insert call. -/
inductive SingleLapOutcome where
  | error (msg : String)
  | insert (row : LapRow)
deriving DecidableEq

/-- Embeds the decision logic of `handleAddLap` (src/unnamed/part_007 lines
200-260): auth check, car/track selection check, field-presence check, the
plausibility guards on `totalMs = minutes*60000 + seconds*1000 + millis`,
then the insert payload.  The surrounding network calls and state setters
are outside the model; an `error` outcome returns before the insert. -/
def handleAddLap (user : Option String) (selectedCarId selectedTrackId : String)
    (minutes seconds millis : Option Nat) (date : String) (isPublic : Bool)
    (sessionLabel conditions temperatureBand : String) : SingleLapOutcome :=
  match user with
  | none => SingleLapOutcome.error "You must be logged in to add a lap."
  | some uid =>
    if selectedCarId = "" ∨ selectedTrackId = "" then
      SingleLapOutcome.error "Select a car and a track."
    else
      match minutes, seconds, millis with
      | some m, some s, some mil =>
        if m * 60000 + s * 1000 + mil < 20000 then
          SingleLapOutcome.error
            "Lap time is unrealistically low (less than 20 seconds). Please double-check."
        else if m * 60000 + s * 1000 + mil > 900000 then
          SingleLapOutcome.error
            "Lap time is unrealistically high (more than 15 minutes). Please double-check."
        else
          SingleLapOutcome.insert {
            user_id := uid
            car_id := selectedCarId
            track_id := selectedTrackId
            lap_time_ms := m * 60000 + s * 1000 + mil
            date := jsOrNull date
            is_public := isPublic
            source := "manual"
            is_verified := false
            session_label := jsOrNull sessionLabel
            conditions := jsOrNull conditions
            temperature_band := jsOrNull temperatureBand }
      | _, _, _ => SingleLapOutcome.error "Fill minutes, seconds and milliseconds."

/-- One staged lap of the quick-session flow (`SessionLap` in the source). -/
structure SessionLap where
  id : Nat
  timeText : String
  lapTimeMs : Nat
deriving DecidableEq

/-- Outcome of `handleAddQsLap`: either a user-facing error (nothing
staged) or the updated staged-lap list and next id. -/
inductive QuickSessionOutcome where
  | error (msg : String)
  | staged (laps : List SessionLap) (nextId : Nat)
deriving DecidableEq

/-- Embeds `handleAddQsLap` (src/unnamed/part_007 lines 309-343):
field-presence check, the same plausibility guards, then the new lap is
appended to the staged list with `timeText = formatLapTime totalMs` and the
id counter advances. -/
def handleAddQsLap (qsMinutes qsSeconds qsMillis : Option Nat)
    (qsLaps : List SessionLap) (qsNextId : Nat) : QuickSessionOutcome :=
  match qsMinutes, qsSeconds, qsMillis with
  | some m, some s, some mil =>
    if m * 60000 + s * 1000 + mil < 20000 then
      QuickSessionOutcome.error "Lap time is unrealistically low (less than 20 seconds)."
    else if m * 60000 + s * 1000 + mil > 900000 then
      QuickSessionOutcome.error "Lap time is unrealistically high (more than 15 minutes)."
    else
      QuickSessionOutcome.staged
        (qsLaps ++ [{
          id := qsNextId
          timeText := formatLapTime (m * 60000 + s * 1000 + mil)
          lapTimeMs := m * 60000 + s * 1000 + mil }])
        (qsNextId + 1)
  | _, _, _ => QuickSessionOutcome.error "Fill in minutes, seconds, and milliseconds."

/-- C4: in both the single-lap flow and the batch quick-session flow, a lap
with `totalMs = minutes*60000 + seconds*1000 + millis` below 20000 or above
900000 is rejected with a user-facing validation error and nothing is
inserted or staged, while in-range values are accepted (inserted with
exactly `totalMs`, appended to the staged list); at the boundaries,
19999 is rejected, 20000 and 900000 are accepted, 900001 is rejected,
shown here in both flows. -/
theorem claim_C4_plausibility_guard :
    (∀ (uid car track : String) (m s mil : Nat) (date : String) (pub : Bool)
        (lbl cond temp : String) (qsLaps : List SessionLap) (nid : Nat),
      car ≠ "" → track ≠ "" →
      (m * 60000 + s * 1000 + mil < 20000 ∨ m * 60000 + s * 1000 + mil > 900000) →
      (∃ msg, handleAddLap (some uid) car track (some m) (some s) (some mil)
          date pub lbl cond temp = SingleLapOutcome.error msg) ∧
      (∃ msg, handleAddQsLap (some m) (some s) (some mil) qsLaps nid =
        QuickSessionOutcome.error msg)) ∧
    (∀ (uid car track : String) (m s mil : Nat) (date : String) (pub : Bool)
        (lbl cond temp : String) (qsLaps : List SessionLap) (nid : Nat),
      car ≠ "" → track ≠ "" →
      20000 ≤ m * 60000 + s * 1000 + mil → m * 60000 + s * 1000 + mil ≤ 900000 →
      handleAddLap (some uid) car track (some m) (some s) (some mil)
          date pub lbl cond temp = SingleLapOutcome.insert {
        user_id := uid
        car_id := car
        track_id := track
        lap_time_ms := m * 60000 + s * 1000 + mil
        date := jsOrNull date
        is_public := pub
        source := "manual"
        is_verified := false
        session_label := jsOrNull lbl
        conditions := jsOrNull cond
        temperature_band := jsOrNull temp } ∧
      handleAddQsLap (some m) (some s) (some mil) qsLaps nid =
        QuickSessionOutcome.staged (qsLaps ++ [{
          id := nid
          timeText := formatLapTime (m * 60000 + s * 1000 + mil)
          lapTimeMs := m * 60000 + s * 1000 + mil }]) (nid + 1)) ∧
    (∃ msg, handleAddQsLap (some 0) (some 19) (some 999) [] 1 =
      QuickSessionOutcome.error msg) ∧
    handleAddQsLap (some 0) (some 20) (some 0) [] 1 =
      QuickSessionOutcome.staged [{ id := 1, timeText := "0:20.000", lapTimeMs := 20000 }] 2 ∧
    handleAddQsLap (some 15) (some 0) (some 0) [] 1 =
      QuickSessionOutcome.staged [{ id := 1, timeText := "15:00.000", lapTimeMs := 900000 }] 2 ∧
    (∃ msg, handleAddQsLap (some 15) (some 0) (some 1) [] 1 =
      QuickSessionOutcome.error msg) ∧
    (∃ msg, handleAddLap (some "u") "c" "t" (some 0) (some 19) (some 999)
      "" false "" "" "" = SingleLapOutcome.error msg) ∧
    handleAddLap (some "u") "c" "t" (some 0) (some 20) (some 0) "" false "" "" "" =
      SingleLapOutcome.insert {
        user_id := "u", car_id := "c", track_id := "t", lap_time_ms := 20000,
        date := none, is_public := false, source := "manual", is_verified := false,
        session_label := none, conditions := none, temperature_band := none } ∧
    handleAddLap (some "u") "c" "t" (some 15) (some 0) (some 0) "" false "" "" "" =
      SingleLapOutcome.insert {
        user_id := "u", car_id := "c", track_id := "t", lap_time_ms := 900000,
        date := none, is_public := false, source := "manual", is_verified := false,
        session_label := none, conditions := none, temperature_band := none } ∧
    (∃ msg, handleAddLap (some "u") "c" "t" (some 15) (some 0) (some 1)
      "" false "" "" "" = SingleLapOutcome.error msg) := by
  refine ⟨?_, ?_,
    ⟨"Lap time is unrealistically low (less than 20 seconds).", by decide⟩,
    by decide, by decide,
    ⟨"Lap time is unrealistically high (more than 15 minutes).", by decide⟩,
    ⟨"Lap time is unrealistically low (less than 20 seconds). Please double-check.",
      by decide⟩,
    by decide, by decide,
    ⟨"Lap time is unrealistically high (more than 15 minutes). Please double-check.",
      by decide⟩⟩
  · intro uid car track m s mil date pub lbl cond temp qsLaps nid hcar htrk ht
    constructor
    · simp only [handleAddLap]
      rw [if_neg (by simp [hcar, htrk])]
      rcases ht with hlow | hhigh
      · exact ⟨_, by rw [if_pos hlow]⟩
      · exact ⟨_, by rw [if_neg (by omega), if_pos hhigh]⟩
    · simp only [handleAddQsLap]
      rcases ht with hlow | hhigh
      · exact ⟨_, by rw [if_pos hlow]⟩
      · exact ⟨_, by rw [if_neg (by omega), if_pos hhigh]⟩
  · intro uid car track m s mil date pub lbl cond temp qsLaps nid hcar htrk h1 h2
    constructor
    · simp only [handleAddLap]
      rw [if_neg (by simp [hcar, htrk]), if_neg (by omega), if_neg (by omega)]
    · simp only [handleAddQsLap]
      rw [if_neg (by omega), if_neg (by omega)]

/-- Witness for C4: at totalMs = 19999 both flows reject. -/
theorem claim_C4_plausibility_guard_witness :
    (∃ msg, handleAddLap (some "u") "c" "t" (some 0) (some 19) (some 999)
        "" false "" "" "" = SingleLapOutcome.error msg) ∧
    (∃ msg, handleAddQsLap (some 0) (some 19) (some 999) [] 1 =
      QuickSessionOutcome.error msg) :=
  claim_C4_plausibility_guard.1 "u" "c" "t" 0 19 999 "" false "" "" "" [] 1
    (by decide) (by decide) (by decide)

/-! ## Personal-best-per-track aggregation (src/app/driver/[id]/page.tsx
lines 169-175; the same first-of-sorted idiom is TrackDetailPage's
`myBestLap`, src/unnamed/part_002 line 178) -/

/-- Lap record as fetched by the driver profile and track pages. -/
structure Lap where
  id : String
  user_id : String
  car_id : String
  track_id : String
  lap_time_ms : Nat
  date : Option String
  is_public : Option Bool
deriving DecidableEq

/-- Embeds the `pbByTrack` loop of DriverProfilePage: walk the laps in
order and keep the first lap seen for each track id, as a JavaScript `Map`
(association list in insertion order, `has` modelled by `lookup`). -/
def pbByTrack (laps : List Lap) : List (String × Lap) :=
  laps.foldl
    (fun m lap => if (m.lookup lap.track_id).isSome then m else m ++ [(lap.track_id, lap)])
    []

/-- The laps collection is sorted ascending by lap time (the pages request
`order('lap_time_ms', ascending)` from the store). -/
def sortedByMs (laps : List Lap) : Prop :=
  List.Pairwise (fun a b => a.lap_time_ms ≤ b.lap_time_ms) laps

/-- Rewrites a lap's public flag; used to state that the aggregation never
consults it. -/
def withPublic (lap : Lap) (b : Option Bool) : Lap := { lap with is_public := b }

theorem lookup_append_single (acc : List (String × Lap)) (k t : String) (v : Lap) :
    (acc ++ [(k, v)]).lookup t =
      match acc.lookup t with
      | some x => some x
      | none => if t == k then some v else none := by
  induction acc with
  | nil =>
    simp only [List.nil_append, List.lookup]
    cases h : t == k <;> simp [h]
  | cons p ps ih =>
    rcases p with ⟨k0, v0⟩
    cases h : t == k0
    · simp only [List.cons_append, List.lookup, h]
      exact ih
    · simp only [List.cons_append, List.lookup, h]

theorem pbByTrack_aux (laps : List Lap) :
    ∀ (acc : List (String × Lap)) (t : String),
      ((laps.foldl
          (fun m lap =>
            if (m.lookup lap.track_id).isSome then m else m ++ [(lap.track_id, lap)])
          acc).lookup t) =
        match acc.lookup t with
        | some x => some x
        | none => laps.find? (fun lap => lap.track_id == t) := by
  induction laps with
  | nil =>
    intro acc t
    cases hx : acc.lookup t <;> simp [hx]
  | cons lap laps ih =>
    intro acc t
    simp only [List.foldl_cons]
    by_cases hacc : (acc.lookup lap.track_id).isSome
    · rw [if_pos hacc]
      rw [ih acc t]
      by_cases ht : lap.track_id = t
      · subst ht
        obtain ⟨y, hy⟩ := Option.isSome_iff_exists.mp hacc
        simp [hy, List.find?]
      · have htb : (lap.track_id == t) = false := beq_eq_false_iff_ne.mpr ht
        cases hx : acc.lookup t <;> simp [List.find?, htb, hx]
    · rw [if_neg hacc]
      rw [ih (acc ++ [(lap.track_id, lap)]) t]
      rw [lookup_append_single]
      have haccnone : acc.lookup lap.track_id = none := by
        cases hx : acc.lookup lap.track_id
        · rfl
        · rw [hx] at hacc; simp at hacc
      by_cases ht : lap.track_id = t
      · subst ht
        simp [haccnone, List.find?]
      · have htb : (lap.track_id == t) = false := beq_eq_false_iff_ne.mpr ht
        have htsym : (t == lap.track_id) = false :=
          beq_eq_false_iff_ne.mpr (fun h => ht h.symm)
        cases hx : acc.lookup t <;> simp [List.find?, htb, htsym, hx]

theorem pbByTrack_lookup (laps : List Lap) (t : String) :
    (pbByTrack laps).lookup t = laps.find? (fun lap => lap.track_id == t) := by
  unfold pbByTrack
  rw [pbByTrack_aux laps [] t]
  rfl

theorem find?_sorted_min (laps : List Lap) (t : String) (lap : Lap)
    (hsorted : sortedByMs laps)
    (hfind : laps.find? (fun lap => lap.track_id == t) = some lap) :
    ∀ l' ∈ laps, l'.track_id = t → lap.lap_time_ms ≤ l'.lap_time_ms := by
  induction laps with
  | nil => simp at hfind
  | cons x xs ih =>
    rw [sortedByMs, List.pairwise_cons] at hsorted
    obtain ⟨hx, hxs⟩ := hsorted
    by_cases hxt : x.track_id = t
    · rw [List.find?_cons_of_pos _ (by simpa using hxt)] at hfind
      simp only [Option.some.injEq] at hfind
      subst hfind
      intro l' hl' _
      rcases List.mem_cons.mp hl' with rfl | hl'
      · exact le_refl _
      · exact hx l' hl'
    · rw [List.find?_cons_of_neg _ (by simpa using hxt)] at hfind
      intro l' hl' hl't
      rcases List.mem_cons.mp hl' with rfl | hl'
      · exact absurd hl't hxt
      · exact ih hxs hfind l' hl' hl't

/-- Example lap of the spec: track B, 70000 ms, public. -/
def exLap70 : Lap :=
  { id := "lap-b", user_id := "driver", car_id := "car", track_id := "B",
    lap_time_ms := 70000, date := none, is_public := some true }

/-- Example lap of the spec: track A, 85000 ms, private. -/
def exLap85 : Lap :=
  { id := "lap-a2", user_id := "driver", car_id := "car", track_id := "A",
    lap_time_ms := 85000, date := none, is_public := some false }

/-- Example lap of the spec: track A, 90000 ms, public. -/
def exLap90 : Lap :=
  { id := "lap-a1", user_id := "driver", car_id := "car", track_id := "A",
    lap_time_ms := 90000, date := none, is_public := some true }

/-- C9: on a laps list sorted ascending by lap time, `pbByTrack` maps each
track id to the first lap of the list bearing that id (hence one of minimal
lap time for that track); the aggregation is computed regardless of the
laps' public flags (rewriting every flag commutes with it); and on the
spec's example — the three laps {A,90000,public}, {A,85000,private},
{B,70000,public} in ascending order — it yields A ↦ 85000 and B ↦ 70000. -/
theorem claim_C9_personal_best :
    (∀ (laps : List Lap) (t : String),
      (pbByTrack laps).lookup t = laps.find? (fun lap => lap.track_id == t)) ∧
    (∀ (laps : List Lap) (t : String) (lap : Lap), sortedByMs laps →
      (pbByTrack laps).lookup t = some lap →
      ∀ l' ∈ laps, l'.track_id = t → lap.lap_time_ms ≤ l'.lap_time_ms) ∧
    (∀ (laps : List Lap) (f : Lap → Option Bool) (t : String),
      (pbByTrack (laps.map fun lap => withPublic lap (f lap))).lookup t =
        Option.map (fun lap => withPublic lap (f lap)) ((pbByTrack laps).lookup t)) ∧
    sortedByMs [exLap70, exLap85, exLap90] ∧
    (pbByTrack [exLap70, exLap85, exLap90]).lookup "A" = some exLap85 ∧
    (pbByTrack [exLap70, exLap85, exLap90]).lookup "B" = some exLap70 := by
  refine ⟨pbByTrack_lookup, ?_, ?_, ?_, by decide, by decide⟩
  · intro laps t lap hs hl
    rw [pbByTrack_lookup] at hl
    exact find?_sorted_min laps t lap hs hl
  · intro laps f t
    rw [pbByTrack_lookup, pbByTrack_lookup, List.find?_map]
    rfl
  · rw [sortedByMs]
    decide

/-- Witness for C9: on the example list the personal best for track A
(85000 ms) is no slower than the other track-A lap (90000 ms). -/
theorem claim_C9_personal_best_witness :
    exLap85.lap_time_ms ≤ exLap90.lap_time_ms :=
  claim_C9_personal_best.2.1 [exLap70, exLap85, exLap90] "A" exLap85 (by rw [sortedByMs]; decide)
    (by decide) exLap90 (by decide) (by decide)

/-! ## Phone-session ingest endpoint (src/unnamed/part_000, POST) -/

/-- One element of the posted `laps` array (`LapPayload` in the source).
Timestamps and durations are finite JavaScript numbers, modelled as
integers (`Math.round` on an integer is the identity). -/
structure LapPayload where
  index : Int
  startTime : Int
  endTime : Int
  durationMs : Int
deriving DecidableEq

/-- Dynamic JSON field value, as far as the endpoint's `typeof`-style
checks distinguish values; missing fields are `undefined`. -/
inductive JsVal where
  | undefined
  | null
  | str (s : String)
  | num (n : Int)
  | boolean (b : Bool)
  | arr (laps : List LapPayload)
deriving DecidableEq

/-- The destructured request payload (the `PhoneSessionPayload` fields). -/
structure PayloadJs where
  trackId : JsVal
  carId : JsVal
  source : JsVal
  accuracyTier : JsVal
  device : JsVal
  samplingHz : JsVal
  sessionStartedAt : JsVal
  sessionEndedAt : JsVal
  laps : JsVal
deriving DecidableEq

/-- Result of `await request.json()`: the body may fail to parse (the
exception lands in the handler's catch-all), parse to a non-object value
(rejected by the `!payload || typeof payload !== "object"` check), or
parse to an object, destructured into the payload fields.  An array body
passes the object check but destructures to all-`undefined` fields and is
represented as such a record. -/
inductive BodyResult where
  | parseError
  | nonObject
  | record (p : PayloadJs)
deriving DecidableEq

/-- The incoming request: the Authorization header, if any, and the body. -/
structure IngestRequest where
  authHeader : Option String
  body : BodyResult
deriving DecidableEq

/-- Environment of one request: the token-verification table
(`auth.getUser`), the `tracks` table (ids), the `cars` table
(car id ↦ owning user id), and the outcomes the store returns for the two
inserts (`none`/`false` meaning the insert fails and writes nothing). -/
structure IngestEnv where
  validTokens : List (String × String)
  tracks : List String
  cars : List (String × String)
  phoneSessionInsertOk : Bool
  newPhoneSessionId : String
  lapsInsertOk : Bool
deriving DecidableEq

/-- Row inserted into `phone_sessions` (`started_at`/`ended_at` keep the
epoch milliseconds that the code renders with `toISOString`). -/
structure PhoneSessionRow where
  user_id : String
  driver_id : String
  track_id : String
  car_id : Option String
  source : String
  accuracy_tier : String
  device : JsVal
  sampling_hz : JsVal
  started_at : Int
  ended_at : Int
deriving DecidableEq

/-- Row inserted into `laps` by the ingest endpoint (`date` keeps the
lap's `endTime` epoch milliseconds). -/
structure IngestLapRow where
  user_id : String
  track_id : String
  car_id : Option String
  lap_time_ms : Int
  date : Int
  is_public : Bool
  session_label : Option String
  conditions : Option String
  temperature_band : Option String
  source : String
deriving DecidableEq

/-- A write performed against the store. -/
inductive DbWrite where
  | phoneSession (row : PhoneSessionRow)
  | lapRows (rows : List IngestLapRow)
deriving DecidableEq

/-- Body of the JSON response: an error object or the success object
`{ok, phoneSessionId, lapsInserted}`. -/
inductive RespBody where
  | err (msg : String)
  | success (ok : Bool) (phoneSessionId : String) (lapsInserted : Nat)
deriving DecidableEq

/-- An HTTP response: status and JSON body. -/
structure ApiResponse where
  status : Nat
  body : RespBody
deriving DecidableEq

/-- ASCII lower-casing of one character (the header check only involves
ASCII letters). -/
def jsCharToLower (c : Char) : Char :=
  if 65 ≤ c.toNat ∧ c.toNat ≤ 90 then Char.ofNat (c.toNat + 32) else c

/-- ASCII lower-casing, modelling `toLowerCase` on the header value. -/
def jsToLower (s : String) : String := ⟨s.data.map jsCharToLower⟩

/-- Prefix test on character lists (`String.prototype.startsWith`). -/
def listStartsWith : List Char → List Char → Bool
  | _, [] => true
  | [], _ :: _ => false
  | c :: cs, p :: ps => decide (c = p) && listStartsWith cs ps

/-- String prefix test used for the `"bearer "` check. -/
def jsStartsWith (s pat : String) : Bool := listStartsWith s.data pat.data

/-- The token taken from the header: drop `"Bearer ".length` characters
and trim, as in the source. -/
def bearerToken (h : String) : String := ⟨jsTrim (h.data.drop 7)⟩

/-- Models the `device ?? null` coalescing. -/
def jsCoalesceNull (v : JsVal) : JsVal :=
  match v with
  | JsVal.undefined => JsVal.null
  | v => v

/-- Steps 6-8 of the handler: insert the phone-session row, then the lap
rows, reporting 500 on either failure (a failed lap insert still leaves
the phone-session row written) and 200 with the success body otherwise. -/
def ingestInsertPhase (env : IngestEnv) (userId trackId : String)
    (finalCarId : Option String) (device samplingHz : JsVal)
    (sessionStartedAt sessionEndedAt : Int) (laps : List LapPayload) :
    ApiResponse × List DbWrite :=
  if env.phoneSessionInsertOk = false then
    (⟨500, RespBody.err "Failed to create phone session"⟩, [])
  else if env.lapsInsertOk = false then
    (⟨500, RespBody.err "Failed to insert laps"⟩,
     [DbWrite.phoneSession {
        user_id := userId, driver_id := userId, track_id := trackId,
        car_id := finalCarId, source := "phone_gps", accuracy_tier := "phone",
        device := jsCoalesceNull device, sampling_hz := samplingHz,
        started_at := sessionStartedAt, ended_at := sessionEndedAt }])
  else
    (⟨200, RespBody.success true env.newPhoneSessionId laps.length⟩,
     [DbWrite.phoneSession {
        user_id := userId, driver_id := userId, track_id := trackId,
        car_id := finalCarId, source := "phone_gps", accuracy_tier := "phone",
        device := jsCoalesceNull device, sampling_hz := samplingHz,
        started_at := sessionStartedAt, ended_at := sessionEndedAt },
      DbWrite.lapRows (laps.map fun lap => {
        user_id := userId, track_id := trackId, car_id := finalCarId,
        lap_time_ms := lap.durationMs, date := lap.endTime, is_public := true,
        session_label := none, conditions := none, temperature_band := none,
        source := "phone_gps" })])

/-- Step 4 of the handler: when `carId` is truthy, look the car up —
unknown car is a 400, a car owned by someone else a 403 (before any
insert) — and otherwise continue with `finalCarId` set accordingly. -/
def ingestCarPhase (env : IngestEnv) (userId trackId : String) (carIdJs : JsVal)
    (device samplingHz : JsVal) (sessionStartedAt sessionEndedAt : Int)
    (laps : List LapPayload) : ApiResponse × List DbWrite :=
  match carIdJs with
  | JsVal.str c =>
    if c = "" then
      ingestInsertPhase env userId trackId none device samplingHz
        sessionStartedAt sessionEndedAt laps
    else
      match env.cars.lookup c with
      | none => (⟨400, RespBody.err "Invalid carId"⟩, [])
      | some owner =>
        if owner ≠ userId then
          (⟨403, RespBody.err "Car does not belong to user"⟩, [])
        else
          ingestInsertPhase env userId trackId (some c) device samplingHz
            sessionStartedAt sessionEndedAt laps
  | _ =>
    ingestInsertPhase env userId trackId none device samplingHz
      sessionStartedAt sessionEndedAt laps

/-- Steps 2b-3 of the handler: the `source`, `accuracyTier`, `laps` and
timestamp checks, then the track-existence check, then the car phase. -/
def ingestAfterCarType (env : IngestEnv) (userId trackId : String) (carIdJs : JsVal)
    (p : PayloadJs) : ApiResponse × List DbWrite :=
  if p.source ≠ JsVal.str "phone_gps" then
    (⟨400, RespBody.err "Invalid source, expected phone_gps"⟩, [])
  else if p.accuracyTier ≠ JsVal.str "phone" then
    (⟨400, RespBody.err "Invalid accuracyTier, expected phone"⟩, [])
  else
    match p.laps with
    | JsVal.arr laps =>
      if laps.length = 0 then
        (⟨400, RespBody.err "At least one lap is required"⟩, [])
      else
        match p.sessionStartedAt, p.sessionEndedAt with
        | JsVal.num sa, JsVal.num se =>
          if ¬ env.tracks.contains trackId then
            (⟨400, RespBody.err "Invalid trackId"⟩, [])
          else
            ingestCarPhase env userId trackId carIdJs p.device p.samplingHz sa se laps
        | _, _ => (⟨400, RespBody.err "Invalid session timestamps"⟩, [])
    | _ => (⟨400, RespBody.err "At least one lap is required"⟩, [])

/-- Step 2 of the handler: the `trackId` and `carId` field checks. -/
def ingestPayloadPhase (env : IngestEnv) (userId : String) (p : PayloadJs) :
    ApiResponse × List DbWrite :=
  match p.trackId with
  | JsVal.str trackId =>
    if trackId = "" then (⟨400, RespBody.err "Invalid trackId"⟩, [])
    else
      match p.carId with
      | JsVal.null => ingestAfterCarType env userId trackId JsVal.null p
      | JsVal.str c => ingestAfterCarType env userId trackId (JsVal.str c) p
      | _ => (⟨400, RespBody.err "Invalid carId"⟩, [])
  | _ => (⟨400, RespBody.err "Invalid trackId"⟩, [])

/-- Embeds the `POST` handler of the phone-sessions route
(src/unnamed/part_000): authentication (three 401 exits), JSON-body
handling (an unparseable body reaches the catch-all 500), the payload
validations, the car-ownership check and the two inserts, returning the
response together with the list of store writes performed. -/
def phoneSessionsPOST (req : IngestRequest) (env : IngestEnv) :
    ApiResponse × List DbWrite :=
  match req.authHeader with
  | none => (⟨401, RespBody.err "Missing or invalid Authorization header"⟩, [])
  | some authHeader =>
    if ¬ jsStartsWith (jsToLower authHeader) "bearer " then
      (⟨401, RespBody.err "Missing or invalid Authorization header"⟩, [])
    else if bearerToken authHeader = "" then
      (⟨401, RespBody.err "Empty bearer token"⟩, [])
    else
      match env.validTokens.lookup (bearerToken authHeader) with
      | none => (⟨401, RespBody.err "Unauthorized"⟩, [])
      | some userId =>
        match req.body with
        | BodyResult.parseError => (⟨500, RespBody.err "Internal server error"⟩, [])
        | BodyResult.nonObject => (⟨400, RespBody.err "Invalid JSON payload"⟩, [])
        | BodyResult.record p => ingestPayloadPhase env userId p

/-- The user identity established by the bearer token, when the three
authentication checks pass. -/
def bearerUser (req : IngestRequest) (env : IngestEnv) : Option String :=
  match req.authHeader with
  | none => none
  | some h =>
    if jsStartsWith (jsToLower h) "bearer " then
      if bearerToken h = "" then none
      else env.validTokens.lookup (bearerToken h)
    else none

/-- The shape validations of the payload, as one predicate: a non-empty
string `trackId`, a `carId` that is `null` or a string, the literal
`source` and `accuracyTier` values, a non-empty `laps` array and numeric
session timestamps. -/
def payloadShapeOk (p : PayloadJs) : Bool :=
  (match p.trackId with | JsVal.str s => decide (s ≠ "") | _ => false) &&
  (match p.carId with | JsVal.null => true | JsVal.str _ => true | _ => false) &&
  (p.source == JsVal.str "phone_gps") &&
  (p.accuracyTier == JsVal.str "phone") &&
  (match p.laps with | JsVal.arr laps => decide (laps.length ≠ 0) | _ => false) &&
  (match p.sessionStartedAt with | JsVal.num _ => true | _ => false) &&
  (match p.sessionEndedAt with | JsVal.num _ => true | _ => false)

/-- The payload's track id (defaulting to the empty string, which only
arises when the shape check already failed). -/
def trackIdOf (p : PayloadJs) : String :=
  match p.trackId with
  | JsVal.str s => s
  | _ => ""

/-- The truthy car id carried by a dynamic value, if any. -/
def carRefJs (v : JsVal) : Option String :=
  match v with
  | JsVal.str c => if c = "" then none else some c
  | _ => none

/-- The payload's truthy car reference, if any. -/
def carRef (p : PayloadJs) : Option String := carRefJs p.carId

/-- Amended response-status taxonomy of the ingest endpoint: 401 when no
bearer identity is established; 500 for an unparseable body (the
catch-all); 400 for a non-object body, a shape violation, an unknown
trackId, or a carId that names no existing car; 403 when the named car
belongs to a different driver; 500 when either insert fails; 200
otherwise. -/
def amendedIngestStatus (req : IngestRequest) (env : IngestEnv) : Nat :=
  match bearerUser req env with
  | none => 401
  | some userId =>
    match req.body with
    | BodyResult.parseError => 500
    | BodyResult.nonObject => 400
    | BodyResult.record p =>
      if ¬ payloadShapeOk p then 400
      else if ¬ env.tracks.contains (trackIdOf p) then 400
      else
        match carRef p with
        | some c =>
          match env.cars.lookup c with
          | none => 400
          | some owner =>
            if owner ≠ userId then 403
            else if ¬ env.phoneSessionInsertOk ∨ ¬ env.lapsInsertOk then 500
            else 200
        | none => if ¬ env.phoneSessionInsertOk ∨ ¬ env.lapsInsertOk then 500 else 200

/-- Modelled from the claim's words: the response-status taxonomy exactly
as claim C5 states it — 401 for missing/invalid/empty bearer or failed
verification; 400 for a malformed payload/missing fields, an unknown
trackId, a non-string carId, an empty or non-array laps list, or
non-numeric timestamps; 403 when the carId refers to a car of a different
driver; 500 on persistence failure; 200 on success.  It assigns no 400 to
a carId naming no existing car. -/
def claimedIngestStatus (req : IngestRequest) (env : IngestEnv) : Nat :=
  match bearerUser req env with
  | none => 401
  | some userId =>
    match req.body with
    | BodyResult.parseError => 400
    | BodyResult.nonObject => 400
    | BodyResult.record p =>
      if ¬ payloadShapeOk p then 400
      else if ¬ env.tracks.contains (trackIdOf p) then 400
      else if (match carRef p with
               | some c =>
                 match env.cars.lookup c with
                 | some owner => decide (owner ≠ userId)
                 | none => false
               | none => false) then 403
      else if ¬ env.phoneSessionInsertOk ∨ ¬ env.lapsInsertOk then 500
      else 200

theorem ingestInsertPhase_status (env : IngestEnv) (u t : String) (fc : Option String)
    (d hz : JsVal) (sa se : Int) (laps : List LapPayload) :
    (ingestInsertPhase env u t fc d hz sa se laps).1.status =
      if ¬ env.phoneSessionInsertOk ∨ ¬ env.lapsInsertOk then 500 else 200 := by
  unfold ingestInsertPhase
  split_ifs <;> simp_all

theorem ingestCarPhase_status (env : IngestEnv) (u t : String) (carIdJs : JsVal)
    (d hz : JsVal) (sa se : Int) (laps : List LapPayload) :
    (ingestCarPhase env u t carIdJs d hz sa se laps).1.status =
      match carRefJs carIdJs with
      | some c =>
        match env.cars.lookup c with
        | none => 400
        | some owner =>
          if owner ≠ u then 403
          else if ¬ env.phoneSessionInsertOk ∨ ¬ env.lapsInsertOk then 500 else 200
      | none => if ¬ env.phoneSessionInsertOk ∨ ¬ env.lapsInsertOk then 500 else 200 := by
  cases carIdJs with
  | str c =>
    simp only [ingestCarPhase, carRefJs]
    by_cases hc : c = ""
    · rw [if_pos hc, if_pos hc]
      exact ingestInsertPhase_status env u t none d hz sa se laps
    · rw [if_neg hc, if_neg hc]
      dsimp only
      cases hlk : env.cars.lookup c with
      | none => rfl
      | some owner =>
        dsimp only
        by_cases how : owner ≠ u
        · rw [if_pos how, if_pos how]
        · rw [if_neg how, if_neg how]
          exact ingestInsertPhase_status env u t (some c) d hz sa se laps
  | undefined => exact ingestInsertPhase_status env u t none d hz sa se laps
  | null => exact ingestInsertPhase_status env u t none d hz sa se laps
  | num n => exact ingestInsertPhase_status env u t none d hz sa se laps
  | boolean b => exact ingestInsertPhase_status env u t none d hz sa se laps
  | arr l => exact ingestInsertPhase_status env u t none d hz sa se laps

theorem ingestAfterCarType_status (env : IngestEnv) (u t : String) (carIdJs : JsVal)
    (p : PayloadJs) :
    (ingestAfterCarType env u t carIdJs p).1.status =
      if ¬ ((p.source == JsVal.str "phone_gps") && (p.accuracyTier == JsVal.str "phone") &&
          (match p.laps with | JsVal.arr laps => decide (laps.length ≠ 0) | _ => false) &&
          (match p.sessionStartedAt with | JsVal.num _ => true | _ => false) &&
          (match p.sessionEndedAt with | JsVal.num _ => true | _ => false)) then 400
      else if ¬ env.tracks.contains t then 400
      else
        match carRefJs carIdJs with
        | some c =>
          match env.cars.lookup c with
          | none => 400
          | some owner =>
            if owner ≠ u then 403
            else if ¬ env.phoneSessionInsertOk ∨ ¬ env.lapsInsertOk then 500 else 200
        | none => if ¬ env.phoneSessionInsertOk ∨ ¬ env.lapsInsertOk then 500 else 200 := by
  unfold ingestAfterCarType
  by_cases hsrc : p.source = JsVal.str "phone_gps"
  · by_cases htier : p.accuracyTier = JsVal.str "phone"
    · rw [if_neg (by simp [hsrc]), if_neg (by simp [htier])]
      cases hlp : p.laps with
      | arr laps =>
        dsimp only
        by_cases hlen : laps.length = 0
        · rw [if_pos hlen]
          simp [hsrc, htier, hlen]
        · rw [if_neg hlen]
          cases hsa : p.sessionStartedAt with
          | num sa =>
            cases hse : p.sessionEndedAt with
            | num se =>
              dsimp only
              have hlen2 : laps ≠ [] := fun h => hlen (by simp [h])
              conv_rhs => rw [if_neg (by simp [hsrc, htier, hlen2])]
              by_cases htrk : env.tracks.contains t = true
              · rw [if_neg (not_not_intro htrk), if_neg (not_not_intro htrk)]
                exact ingestCarPhase_status env u t carIdJs p.device p.samplingHz sa se laps
              · rw [if_pos htrk, if_pos htrk]
            | undefined => dsimp only; simp [hsrc, htier, hlen]
            | null => dsimp only; simp [hsrc, htier, hlen]
            | str s => dsimp only; simp [hsrc, htier, hlen]
            | boolean b => dsimp only; simp [hsrc, htier, hlen]
            | arr l => dsimp only; simp [hsrc, htier, hlen]
          | undefined => dsimp only; simp [hsrc, htier, hlen]
          | null => dsimp only; simp [hsrc, htier, hlen]
          | str s => dsimp only; simp [hsrc, htier, hlen]
          | boolean b => dsimp only; simp [hsrc, htier, hlen]
          | arr l => dsimp only; simp [hsrc, htier, hlen]
      | undefined => simp [hsrc, htier]
      | null => simp [hsrc, htier]
      | str s => simp [hsrc, htier]
      | num n => simp [hsrc, htier]
      | boolean b => simp [hsrc, htier]
    · rw [if_neg (by simp [hsrc]), if_pos htier]
      simp [htier]
  · rw [if_pos hsrc]
    simp [hsrc]

theorem ingestPayloadPhase_status (env : IngestEnv) (u : String) (p : PayloadJs) :
    (ingestPayloadPhase env u p).1.status =
      if ¬ payloadShapeOk p then 400
      else if ¬ env.tracks.contains (trackIdOf p) then 400
      else
        match carRef p with
        | some c =>
          match env.cars.lookup c with
          | none => 400
          | some owner =>
            if owner ≠ u then 403
            else if ¬ env.phoneSessionInsertOk ∨ ¬ env.lapsInsertOk then 500 else 200
        | none => if ¬ env.phoneSessionInsertOk ∨ ¬ env.lapsInsertOk then 500 else 200 := by
  unfold ingestPayloadPhase
  cases htid : p.trackId with
  | str tid =>
    dsimp only
    by_cases hs : tid = ""
    · rw [if_pos hs]
      simp [payloadShapeOk, htid, hs]
    · rw [if_neg hs]
      cases hcid : p.carId with
      | null =>
        rw [ingestAfterCarType_status]
        have hshape : payloadShapeOk p =
            ((p.source == JsVal.str "phone_gps") && (p.accuracyTier == JsVal.str "phone") &&
              (match p.laps with | JsVal.arr laps => decide (laps.length ≠ 0) | _ => false) &&
              (match p.sessionStartedAt with | JsVal.num _ => true | _ => false) &&
              (match p.sessionEndedAt with | JsVal.num _ => true | _ => false)) := by
          simp [payloadShapeOk, htid, hcid, hs]
        have htof : trackIdOf p = tid := by simp [trackIdOf, htid]
        have hcr : carRef p = carRefJs JsVal.null := by simp [carRef, hcid]
        rw [hshape, htof, hcr]
      | str c =>
        rw [ingestAfterCarType_status]
        have hshape : payloadShapeOk p =
            ((p.source == JsVal.str "phone_gps") && (p.accuracyTier == JsVal.str "phone") &&
              (match p.laps with | JsVal.arr laps => decide (laps.length ≠ 0) | _ => false) &&
              (match p.sessionStartedAt with | JsVal.num _ => true | _ => false) &&
              (match p.sessionEndedAt with | JsVal.num _ => true | _ => false)) := by
          simp [payloadShapeOk, htid, hcid, hs]
        have htof : trackIdOf p = tid := by simp [trackIdOf, htid]
        have hcr : carRef p = carRefJs (JsVal.str c) := by simp [carRef, hcid]
        rw [hshape, htof, hcr]
      | undefined => simp [payloadShapeOk, htid, hcid]
      | num n => simp [payloadShapeOk, htid, hcid]
      | boolean b => simp [payloadShapeOk, htid, hcid]
      | arr l => simp [payloadShapeOk, htid, hcid]
  | undefined => simp [payloadShapeOk, htid]
  | null => simp [payloadShapeOk, htid]
  | num n => simp [payloadShapeOk, htid]
  | boolean b => simp [payloadShapeOk, htid]
  | arr l => simp [payloadShapeOk, htid]

theorem phoneSessionsPOST_status (req : IngestRequest) (env : IngestEnv) :
    (phoneSessionsPOST req env).1.status = amendedIngestStatus req env := by
  obtain ⟨ah, body⟩ := req
  cases ah with
  | none => rfl
  | some h =>
    simp only [phoneSessionsPOST, amendedIngestStatus, bearerUser]
    by_cases hb : jsStartsWith (jsToLower h) "bearer " = true
    · rw [if_neg (not_not_intro hb), if_pos hb]
      by_cases ht : bearerToken h = ""
      · rw [if_pos ht, if_pos ht]
      · rw [if_neg ht, if_neg ht]
        cases hlk : env.validTokens.lookup (bearerToken h) with
        | none => rfl
        | some userId =>
          dsimp only
          cases body with
          | parseError => rfl
          | nonObject => rfl
          | record p => exact ingestPayloadPhase_status env userId p
    · rw [if_pos hb, if_neg hb]

theorem phoneSessionsPOST_success (req : IngestRequest) (env : IngestEnv)
    (p : PayloadJs) (laps : List LapPayload)
    (hbody : req.body = BodyResult.record p) (hlaps : p.laps = JsVal.arr laps)
    (h200 : (phoneSessionsPOST req env).1.status = 200) :
    (phoneSessionsPOST req env).1.body =
      RespBody.success true env.newPhoneSessionId laps.length := by
  obtain ⟨ah, body⟩ := req
  simp only at hbody
  subst hbody
  unfold phoneSessionsPOST at h200 ⊢
  cases ah with
  | none => simp at h200
  | some hdr =>
    dsimp only at h200 ⊢
    by_cases hb : jsStartsWith (jsToLower hdr) "bearer " = true
    · rw [if_neg (not_not_intro hb)] at h200 ⊢
      by_cases ht : bearerToken hdr = ""
      · rw [if_pos ht] at h200 ⊢
        simp at h200
      · rw [if_neg ht] at h200 ⊢
        revert h200
        cases hlk : env.validTokens.lookup (bearerToken hdr) with
        | none => intro h200; simp at h200
        | some userId =>
          intro h200
          dsimp only at h200 ⊢
          unfold ingestPayloadPhase at h200 ⊢
          revert h200
          cases htid : p.trackId with
          | str tid =>
            intro h200
            dsimp only at h200 ⊢
            by_cases hs : tid = ""
            · rw [if_pos hs] at h200 ⊢
              simp at h200
            · rw [if_neg hs] at h200 ⊢
              revert h200
              have hcont : ∀ carIdJs,
                  (ingestAfterCarType env userId tid carIdJs p).1.status = 200 →
                  (ingestAfterCarType env userId tid carIdJs p).1.body =
                    RespBody.success true env.newPhoneSessionId laps.length := by
                intro carIdJs h200
                unfold ingestAfterCarType at h200 ⊢
                revert h200
                by_cases hsrc : p.source ≠ JsVal.str "phone_gps"
                · rw [if_pos hsrc]
                  intro h200; simp at h200
                · rw [if_neg hsrc]
                  by_cases htier : p.accuracyTier ≠ JsVal.str "phone"
                  · rw [if_pos htier]
                    intro h200; simp at h200
                  · rw [if_neg htier]
                    rw [hlaps]
                    dsimp only
                    by_cases hlen : laps.length = 0
                    · rw [if_pos hlen]
                      intro h200; simp at h200
                    · rw [if_neg hlen]
                      cases hsa : p.sessionStartedAt with
                      | num sa =>
                        cases hse : p.sessionEndedAt with
                        | num se =>
                          dsimp only
                          by_cases htrk : ¬ env.tracks.contains tid = true
                          · rw [if_pos htrk]
                            intro h200; simp at h200
                          · rw [if_neg htrk]
                            unfold ingestCarPhase
                            cases carIdJs with
                            | str c =>
                              dsimp only
                              by_cases hc : c = ""
                              · rw [if_pos hc]
                                unfold ingestInsertPhase
                                by_cases hph : env.phoneSessionInsertOk = false
                                · rw [if_pos hph]; intro h200; simp at h200
                                · rw [if_neg hph]
                                  by_cases hlp2 : env.lapsInsertOk = false
                                  · rw [if_pos hlp2]; intro h200; simp at h200
                                  · rw [if_neg hlp2]; intro _; rfl
                              · rw [if_neg hc]
                                cases hcar : env.cars.lookup c with
                                | none => intro h200; simp at h200
                                | some owner =>
                                  dsimp only
                                  by_cases how : owner ≠ userId
                                  · rw [if_pos how]; intro h200; simp at h200
                                  · rw [if_neg how]
                                    unfold ingestInsertPhase
                                    by_cases hph : env.phoneSessionInsertOk = false
                                    · rw [if_pos hph]; intro h200; simp at h200
                                    · rw [if_neg hph]
                                      by_cases hlp2 : env.lapsInsertOk = false
                                      · rw [if_pos hlp2]; intro h200; simp at h200
                                      · rw [if_neg hlp2]; intro _; rfl
                            | undefined =>
                              dsimp only
                              unfold ingestInsertPhase
                              by_cases hph : env.phoneSessionInsertOk = false
                              · rw [if_pos hph]; intro h200; simp at h200
                              · rw [if_neg hph]
                                by_cases hlp2 : env.lapsInsertOk = false
                                · rw [if_pos hlp2]; intro h200; simp at h200
                                · rw [if_neg hlp2]; intro _; rfl
                            | null =>
                              dsimp only
                              unfold ingestInsertPhase
                              by_cases hph : env.phoneSessionInsertOk = false
                              · rw [if_pos hph]; intro h200; simp at h200
                              · rw [if_neg hph]
                                by_cases hlp2 : env.lapsInsertOk = false
                                · rw [if_pos hlp2]; intro h200; simp at h200
                                · rw [if_neg hlp2]; intro _; rfl
                            | num n =>
                              dsimp only
                              unfold ingestInsertPhase
                              by_cases hph : env.phoneSessionInsertOk = false
                              · rw [if_pos hph]; intro h200; simp at h200
                              · rw [if_neg hph]
                                by_cases hlp2 : env.lapsInsertOk = false
                                · rw [if_pos hlp2]; intro h200; simp at h200
                                · rw [if_neg hlp2]; intro _; rfl
                            | boolean b =>
                              dsimp only
                              unfold ingestInsertPhase
                              by_cases hph : env.phoneSessionInsertOk = false
                              · rw [if_pos hph]; intro h200; simp at h200
                              · rw [if_neg hph]
                                by_cases hlp2 : env.lapsInsertOk = false
                                · rw [if_pos hlp2]; intro h200; simp at h200
                                · rw [if_neg hlp2]; intro _; rfl
                            | arr l2 =>
                              dsimp only
                              unfold ingestInsertPhase
                              by_cases hph : env.phoneSessionInsertOk = false
                              · rw [if_pos hph]; intro h200; simp at h200
                              · rw [if_neg hph]
                                by_cases hlp2 : env.lapsInsertOk = false
                                · rw [if_pos hlp2]; intro h200; simp at h200
                                · rw [if_neg hlp2]; intro _; rfl
                        | undefined => intro h200; simp at h200
                        | null => intro h200; simp at h200
                        | str s2 => intro h200; simp at h200
                        | boolean b => intro h200; simp at h200
                        | arr l2 => intro h200; simp at h200
                      | undefined => intro h200; simp at h200
                      | null => intro h200; simp at h200
                      | str s2 => intro h200; simp at h200
                      | boolean b => intro h200; simp at h200
                      | arr l2 => intro h200; simp at h200
              cases hcid : p.carId with
              | null => exact fun h200 => hcont JsVal.null h200
              | str c => exact fun h200 => hcont (JsVal.str c) h200
              | undefined => intro h200; simp at h200
              | num n => intro h200; simp at h200
              | boolean b => intro h200; simp at h200
              | arr l2 => intro h200; simp at h200
          | undefined => intro h200; simp at h200
          | null => intro h200; simp at h200
          | num n => intro h200; simp at h200
          | boolean b => intro h200; simp at h200
          | arr l2 => intro h200; simp at h200
    · rw [if_pos hb] at h200 ⊢
      simp at h200

/-- Environment for the concrete ingest scenarios: one valid token for
driver u1, one known track, a car belonging to driver u2, both inserts
succeeding. -/
def ingestExampleEnv : IngestEnv :=
  { validTokens := [("tok", "u1")], tracks := ["t1"], cars := [("c2", "u2")],
    phoneSessionInsertOk := true, newPhoneSessionId := "ps1", lapsInsertOk := true }

/-- A well-formed payload over track t1 with the given carId field. -/
def ingestExamplePayload (car : JsVal) : PayloadJs :=
  { trackId := JsVal.str "t1", carId := car, source := JsVal.str "phone_gps",
    accuracyTier := JsVal.str "phone", device := JsVal.null, samplingHz := JsVal.num 10,
    sessionStartedAt := JsVal.num 0, sessionEndedAt := JsVal.num 1,
    laps := JsVal.arr [{ index := 0, startTime := 0, endTime := 1, durationMs := 30000 }] }

/-- A correctly authenticated request with the given carId field. -/
def ingestExampleRequest (car : JsVal) : IngestRequest :=
  { authHeader := some "Bearer tok", body := BodyResult.record (ingestExamplePayload car) }

/-- C5 counterexample: for an authenticated, well-formed request whose
carId names no existing car, the endpoint answers 400, while the claim's
taxonomy (which only covers non-string carId under 400 and other-driver
cars under 403) classifies the request as a 200 success. -/
theorem claim_C5_counterexample :
    (phoneSessionsPOST (ingestExampleRequest (JsVal.str "ghost")) ingestExampleEnv).1.status
        = 400 ∧
      claimedIngestStatus (ingestExampleRequest (JsVal.str "ghost")) ingestExampleEnv = 200 ∧
      (phoneSessionsPOST (ingestExampleRequest (JsVal.str "ghost")) ingestExampleEnv).1.status ≠
        claimedIngestStatus (ingestExampleRequest (JsVal.str "ghost")) ingestExampleEnv := by
  refine ⟨by decide, by decide, by decide⟩

/-- C5 (amended): the response status is exactly `amendedIngestStatus` —
401 for missing/invalid/empty bearer or failed verification; 500 for an
unparseable body; 400 for a non-object body, malformed/missing fields, an
unknown trackId, or a carId naming no existing car; 403 when the car
belongs to a different driver; 500 when an insert fails; and 200 with body
`{ok := true, phoneSessionId, lapsInserted}` on success. -/
theorem claim_C5_status_taxonomy :
    (∀ (req : IngestRequest) (env : IngestEnv),
      (phoneSessionsPOST req env).1.status = amendedIngestStatus req env) ∧
    (∀ (req : IngestRequest) (env : IngestEnv) (p : PayloadJs) (laps : List LapPayload),
      req.body = BodyResult.record p → p.laps = JsVal.arr laps →
      (phoneSessionsPOST req env).1.status = 200 →
      (phoneSessionsPOST req env).1.body =
        RespBody.success true env.newPhoneSessionId laps.length) :=
  ⟨phoneSessionsPOST_status, phoneSessionsPOST_success⟩

/-- Witness for C5: a fully valid request (car owned by the caller) is a
200 whose body carries the new session id and the lap count. -/
theorem claim_C5_status_taxonomy_witness :
    (phoneSessionsPOST (ingestExampleRequest JsVal.null) ingestExampleEnv).1.body =
      RespBody.success true ingestExampleEnv.newPhoneSessionId
        [({ index := 0, startTime := 0, endTime := 1, durationMs := 30000 } : LapPayload)].length :=
  claim_C5_status_taxonomy.2 (ingestExampleRequest JsVal.null) ingestExampleEnv
    (ingestExamplePayload JsVal.null)
    [{ index := 0, startTime := 0, endTime := 1, durationMs := 30000 }]
    rfl rfl (by decide)

/-- C6: a session-ingest request that authenticates as driver u, passes the
payload and track validations, and carries a carId naming an existing car
of a different owner, is answered 403 ("Car does not belong to user") with
an empty list of store writes: the ownership check runs before any insert,
so no phone-session row and no lap rows are written. -/
theorem claim_C6_foreign_car_forbidden (req : IngestRequest) (env : IngestEnv)
    (p : PayloadJs) (u c owner : String)
    (hauth : bearerUser req env = some u)
    (hbody : req.body = BodyResult.record p)
    (hshape : payloadShapeOk p = true)
    (htrack : env.tracks.contains (trackIdOf p) = true)
    (hcar : carRef p = some c)
    (howner : env.cars.lookup c = some owner)
    (hdiff : owner ≠ u) :
    phoneSessionsPOST req env =
      ({ status := 403, body := RespBody.err "Car does not belong to user" }, []) := by
  obtain ⟨ah, body⟩ := req
  simp only at hbody hauth
  subst hbody
  unfold bearerUser at hauth
  cases ah with
  | none => simp at hauth
  | some hdr =>
    dsimp only at hauth
    by_cases hb : jsStartsWith (jsToLower hdr) "bearer " = true
    · rw [if_pos hb] at hauth
      by_cases ht : bearerToken hdr = ""
      · rw [if_pos ht] at hauth
        simp at hauth
      · rw [if_neg ht] at hauth
        unfold phoneSessionsPOST
        dsimp only
        rw [if_neg (not_not_intro hb), if_neg ht, hauth]
        dsimp only
        cases htid : p.trackId with
        | str tid =>
          cases hcid : p.carId with
          | str c0 =>
            simp only [payloadShapeOk, htid, hcid, Bool.and_eq_true, beq_iff_eq,
              decide_eq_true_eq] at hshape
            obtain ⟨⟨⟨⟨⟨⟨htid_ne, _⟩, hsrc⟩, htier⟩, hlaps_ok⟩, hsa_ok⟩, hse_ok⟩ := hshape
            rw [carRef, hcid] at hcar
            simp only [carRefJs] at hcar
            by_cases hc0 : c0 = ""
            · rw [if_pos hc0] at hcar
              simp at hcar
            · rw [if_neg hc0] at hcar
              simp only [Option.some.injEq] at hcar
              subst hcar
              simp only [trackIdOf, htid] at htrack
              unfold ingestPayloadPhase
              rw [htid]
              dsimp only
              rw [if_neg htid_ne]
              rw [hcid]
              dsimp only
              unfold ingestAfterCarType
              rw [if_neg (not_not_intro hsrc), if_neg (not_not_intro htier)]
              cases hlp : p.laps with
              | arr laps0 =>
                rw [hlp] at hlaps_ok
                dsimp only at hlaps_ok
                dsimp only
                rw [if_neg (by simpa using hlaps_ok)]
                cases hsat : p.sessionStartedAt with
                | num sa =>
                  cases hset : p.sessionEndedAt with
                  | num se =>
                    dsimp only
                    rw [if_neg (not_not_intro htrack)]
                    unfold ingestCarPhase
                    dsimp only
                    rw [if_neg hc0, howner]
                    dsimp only
                    rw [if_pos hdiff]
                  | undefined => rw [hset] at hse_ok; simp at hse_ok
                  | null => rw [hset] at hse_ok; simp at hse_ok
                  | str s2 => rw [hset] at hse_ok; simp at hse_ok
                  | boolean b2 => rw [hset] at hse_ok; simp at hse_ok
                  | arr l2 => rw [hset] at hse_ok; simp at hse_ok
                | undefined => rw [hsat] at hsa_ok; simp at hsa_ok
                | null => rw [hsat] at hsa_ok; simp at hsa_ok
                | str s2 => rw [hsat] at hsa_ok; simp at hsa_ok
                | boolean b2 => rw [hsat] at hsa_ok; simp at hsa_ok
                | arr l2 => rw [hsat] at hsa_ok; simp at hsa_ok
              | undefined => rw [hlp] at hlaps_ok; simp at hlaps_ok
              | null => rw [hlp] at hlaps_ok; simp at hlaps_ok
              | str s2 => rw [hlp] at hlaps_ok; simp at hlaps_ok
              | num n2 => rw [hlp] at hlaps_ok; simp at hlaps_ok
              | boolean b2 => rw [hlp] at hlaps_ok; simp at hlaps_ok
          | null =>
            rw [carRef, hcid] at hcar
            simp [carRefJs] at hcar
          | undefined => simp [payloadShapeOk, htid, hcid] at hshape
          | num n => simp [payloadShapeOk, htid, hcid] at hshape
          | boolean b => simp [payloadShapeOk, htid, hcid] at hshape
          | arr l2 => simp [payloadShapeOk, htid, hcid] at hshape
        | undefined => simp [payloadShapeOk, htid] at hshape
        | null => simp [payloadShapeOk, htid] at hshape
        | num n => simp [payloadShapeOk, htid] at hshape
        | boolean b => simp [payloadShapeOk, htid] at hshape
        | arr l2 => simp [payloadShapeOk, htid] at hshape
    · rw [if_neg hb] at hauth
      simp at hauth

/-- Witness for C6: the concrete request naming u2's car c2 under u1's
token is answered 403 with no writes. -/
theorem claim_C6_foreign_car_forbidden_witness :
    phoneSessionsPOST (ingestExampleRequest (JsVal.str "c2")) ingestExampleEnv =
      ({ status := 403, body := RespBody.err "Car does not belong to user" }, []) :=
  claim_C6_foreign_car_forbidden (ingestExampleRequest (JsVal.str "c2")) ingestExampleEnv
    (ingestExamplePayload (JsVal.str "c2")) "u1" "c2" "u2"
    (by decide) rfl (by decide) (by decide) (by decide) (by decide) (by decide)
